import Mathlib

/-!
Shallow embedding of the astroformulatron recalculation engine:
`Calculate`, `Reorder` and `ChangeUnit` from `src/unnamed/part_000`, the
unit registry from `src/units.mjs`, and the catalog entries from
`src/unnamed/part_001` that the claims mention.

Modeling conventions:
* JavaScript numbers are elements of a `LinearOrderedField` (`ℚ` for the
  executable instances); a value that
  is non-finite in JavaScript (`NaN` or `±Infinity`) is `none` in
  `Option K`.  Exponents are modeled as integers, the form produced by
  `num_to_scientific` and by the step-1 exponent input.
* part_001's transcendental `log10` and `10 ** x` enter the
  distance-modulus form as function parameters; where a concrete trace
  needs their outputs, the IEEE-754 double-precision values the engine
  actually computes are pinned explicitly.
* Variable identifiers are `String`s (JavaScript object keys); a
  JavaScript object is a total function `String → _` together with the
  list of its keys in enumeration order.
* Division by zero and logarithms of nonpositive numbers are non-finite
  in JavaScript, hence `none` here.
-/

namespace Astro

variable {K : Type} [LinearOrderedField K] [FloorRing K]

/-- Rounding to 5 significant digits:
`Number.parseFloat(x.toPrecision(5))` inside `num_to_scientific`
(part_000 lines 14-19).  `round` is round-half-up on the scaled value,
matching `toPrecision`'s decimal rounding. -/
def round5 (x : K) : K :=
  if x = 0 then 0
  else (round (x / (10:K) ^ (Int.log 10 |x| - 4)) : ℤ) * (10:K) ^ (Int.log 10 |x| - 4)

/-- `num_to_scientific` (part_000 lines 14-24) on a finite input: round to
5 significant digits, then split into mantissa and integer exponent as
`toExponential` does. -/
def num_to_scientific (x : K) : K × ℤ :=
  let y := round5 x
  if y = 0 then (0, 0)
  else (y / (10:K) ^ Int.log 10 |y|, Int.log 10 |y|)

/-- `mantissa * 10 ^ exponent`: recover the plain value from the
scientific-notation pair. -/
def denormalize (p : K × ℤ) : K := p.1 * (10:K) ^ p.2

/-- `num_to_scientific` lifted to a possibly non-finite argument: a
non-finite input propagates non-finite markers to both components (in JS
the mantissa parses to `NaN` and the exponent component is absent). -/
def num_to_scientificO (x : Option K) : Option K × Option ℤ :=
  match x with
  | none => (none, none)
  | some v => (some (num_to_scientific v).1, some (num_to_scientific v).2)

theorem round5_zero : round5 (0:K) = 0 := by simp [round5]

theorem denormalize_num_to_scientific (x : K) :
    denormalize (num_to_scientific x) = round5 x := by
  unfold num_to_scientific denormalize
  by_cases h : round5 x = 0
  · simp [h]
  · simp only [h, if_neg, ite_false]
    have h10 : ((10:K) ^ Int.log 10 |round5 x|) ≠ 0 :=
      zpow_ne_zero _ (by norm_num)
    field_simp

theorem abs_round5_sub (x : K) : |round5 x - x| ≤ |x| / 20000 := by
  rcases eq_or_ne x 0 with h | h
  · simp [round5, h]
  · unfold round5
    rw [if_neg h]
    have h10 : (0:K) < 10 := by norm_num
    have hxpos : (0:K) < |x| := abs_pos.mpr h
    have hs : (0:K) < (10:K) ^ (Int.log 10 |x| - 4) := zpow_pos h10 _
    have hle : (10:K) ^ Int.log 10 |x| ≤ |x| := by
      have := Int.zpow_log_le_self (R := K) (b := 10) (by norm_num) hxpos
      simpa using this
    set s : K := (10:K) ^ (Int.log 10 |x| - 4) with hsdef
    have hkey : (round (x / s) : K) * s - x = ((round (x / s) : K) - x / s) * s := by
      rw [sub_mul, div_mul_cancel₀ _ (ne_of_gt hs)]
    have h1 : |(round (x / s) : K) * s - x| ≤ (1 / 2) * s := by
      rw [hkey, abs_mul, abs_of_pos hs]
      have h2 : |(round (x / s) : K) - x / s| ≤ 1 / 2 := by
        rw [abs_sub_comm]
        exact abs_sub_round (x / s)
      exact mul_le_mul_of_nonneg_right h2 (le_of_lt hs)
    have hsle : s ≤ |x| / 10000 := by
      have hsplit : s = (10:K) ^ Int.log 10 |x| / (10:K) ^ (4:ℤ) := by
        rw [hsdef, zpow_sub₀ (by norm_num : (10:K) ≠ 0)]
      have h4 : ((10:K) ^ (4:ℤ)) = 10000 := by norm_num
      rw [hsplit, h4]
      exact div_le_div_of_nonneg_right hle (by norm_num)
    calc |(round (x / s) : K) * s - x| ≤ (1 / 2) * s := h1
      _ ≤ (1 / 2) * (|x| / 10000) :=
        mul_le_mul_of_nonneg_left hsle (by norm_num)
      _ = |x| / 20000 := by ring

/-- One per-variable record, with the fields the engine touches
(part_000 lines 31-44, 48-77, 111-119).  `prefix_marker` is the source's
`prefix` field (a Lean keyword).  `formula` is the variable's pure
derivation function over the value snapshot. -/
structure Var (K : Type) where
  value : Option K
  mantissa : Option K
  exponent : Option ℤ
  unit : Option String
  default_unit : Option String
  unit_ratio : K
  formula : (String → Option K) → Option K
  prefix_marker : String

/-- A formula record: `ids` is `Object.keys(form.vars)` in key
enumeration order (the order the snapshot and the guard iterate),
`order` the recalculation chain, `variables` the id → record map (a
total function, modeling a JavaScript object). -/
structure Form (K : Type) where
  ids : List String
  order : List String
  vars : String → Var K

/-- The edited field carried by an input event
(`event.target.name` / `event.target.value`): the mantissa or exponent
`<input>`, or the unit `<select>` (which has no `name` attribute, so its
event writes only the junk property `""`, read by nothing).  The payload
is the parsed numeric value, `none` when the typed string does not parse
to a finite number (e.g. a bare minus sign). -/
inductive Edit (K : Type) where
  | mantissa (x : Option K)
  | exponent (e : Option ℤ)
  | unitSel

/-- part_000 line 55: `v[event.target.name] = event.target.value`. -/
def applyEdit (v : Var K) : Edit K → Var K
  | .mantissa x => { v with mantissa := x }
  | .exponent e => { v with exponent := e }
  | .unitSel => v

/-- part_000 line 56:
`v.value = v.mantissa * Math.pow(10, v.exponent) * v.unit_ratio`;
non-finite whenever mantissa or exponent is. -/
def setValue (v : Var K) : Var K :=
  { v with value := do
      let m ← v.mantissa
      let e ← v.exponent
      pure (m * (10:K) ^ e * v.unit_ratio) }

/-- part_000 lines 54-56: update the edited variable's raw field and
recompute its stored value. -/
def editApply (form : Form K) (vid : String) (ed : Edit K) : Form K :=
  { form with
    vars := fun j =>
      if j = vid then setValue (applyEdit (form.vars j) ed)
      else form.vars j }

/-- part_000 lines 58-61: the flattened snapshot `values` of every
variable's current value, keyed by the object's ids; a key outside the
form yields JS `undefined`, i.e. non-finite. -/
def snapshotOf (form : Form K) : String → Option K :=
  fun j => if j ∈ form.ids then (form.vars j).value else none

/-- part_000 line 65: run propagation only when every variable besides
`order[0]` holds a finite value in the snapshot. -/
def guardOK (form : Form K) : Bool :=
  form.ids.all fun j => (form.order.head? == some j) || (snapshotOf form j).isSome

/-- part_000 lines 66-75: the propagation walk over `order`.  Each
non-skipped variable is rewritten with its formula's result, the
snapshot is updated in place, and mantissa/exponent are re-derived from
`val / unit_ratio` (non-finite in JS when `unit_ratio` is zero). -/
def calcLoop (vid : String) (self : Bool) :
    List String → (String → Var K) → (String → Option K) →
      (String → Var K) × (String → Option K)
  | [], vars, snap => (vars, snap)
  | id :: rest, vars, snap =>
    if id = vid ∧ self = false then
      calcLoop vid self rest vars snap
    else
      let val := (vars id).formula snap
      let sci := num_to_scientificO (val.bind fun x =>
        if (vars id).unit_ratio = 0 then none else some (x / (vars id).unit_ratio))
      let w : Var K := { vars id with value := val, mantissa := sci.1, exponent := sci.2 }
      calcLoop vid self rest
        (fun j => if j = id then w else vars j)
        (fun j => if j = id then val else snap j)

/-- part_000 lines 48-77, `Calculate(group_id, form_id, variable_id,
self)`: apply the edit, rebuild the snapshot, and propagate along
`order` unless the non-finite guard aborts. -/
def Calculate (form : Form K) (vid : String) (ed : Edit K) (self : Bool) : Form K :=
  let f1 := editApply form vid ed
  if guardOK f1 then
    { f1 with vars := (calcLoop vid self f1.order f1.vars (snapshotOf f1)).1 }
  else f1

/-- part_000 line 84:
`order.push(order.splice(order.indexOf(variable_id), 1)[0])`.  When the
id is present this erases its first occurrence and appends it.  When it
is absent, JS `indexOf` gives -1 and `splice(-1,1)` removes the last
element and pushes it right back, leaving the list unchanged (the
empty-order case, where JS would push `undefined`, is not modeled; every
catalog form has at least two variables). -/
def moveToLast (order : List String) (vid : String) : List String :=
  if vid ∈ order then order.erase vid ++ [vid] else order

/-- part_000 lines 87-92 (and the startup preprocessing, lines 38-43):
the display marker from the fractional position
`indexOf / (length - 1)`.  When the denominator is zero the JS fraction
is `NaN` and neither comparison fires, so no marker is set. -/
def prefixFor (order : List String) (id : String) : String :=
  let idx := order.indexOf id
  let denom := order.length - 1
  if denom = 0 then ""
  else if idx = denom then "➡️"
  else if idx = 0 then "⭐"
  else ""

/-- The marker-refresh loop of `Reorder` (part_000 lines 86-93), walking
the given iteration list and stamping each variable's marker computed
against the full (already reordered) `order`. -/
def setPrefixesAux (order : List String) :
    List String → (String → Var K) → (String → Var K)
  | [], vars => vars
  | id :: rest, vars =>
    setPrefixesAux order rest
      (fun j => if j = id then { vars id with prefix_marker := prefixFor order id } else vars j)

/-- part_000 lines 79-96, `Reorder`: move the focused variable to the
end of the chain, then refresh every marker. -/
def Reorder (form : Form K) (vid : String) : Form K :=
  let order2 := moveToLast form.order vid
  { form with
    order := order2
    vars := setPrefixesAux order2 order2 form.vars }

/-- `Math.PI`: the IEEE-754 double closest to π (units.mjs line 1), an
exact rational. -/
def PI : ℚ := 884279719003555 / 281474976710656

/-- units.mjs lines 3-64: each quantity kind with its units and scalar
factors to the kind's base unit, in declaration order. -/
def units : List (String × List (String × ℚ)) := [
  ("length", [("angstroms", 1e-10), ("nanometers", 1e-9), ("centimeters", 1e-2),
    ("meters", 1), ("kilometers", 1e3), ("R⊙", 6.957e8), ("AUs", 1.496e11),
    ("light-years", 9.461e15), ("parsecs", 3.086e16), ("kiloparsecs", 3.086e19),
    ("megaparsecs", 3.086e22)]),
  ("angle", [("milliarcseconds", 1e-3/360), ("arcseconds", 1/360),
    ("arcminutes", 1/60), ("degrees", 1), ("radians", 180/PI)]),
  ("time", [("seconds", 1), ("minutes", 60), ("hours", 360), ("days", 86400),
    ("years", 31557600)]),
  ("power", [("watts", 1), ("megawatts", 1e6), ("gigawatts", 1e9),
    ("terawatts", 1e12), ("L⊙", 3.828e26)]),
  ("force", [("dynes", 1e-5), ("newtons", 1)]),
  ("temperature", [("kelvins", 1), ("rankines", 5/9), ("T⊙", 5778)]),
  ("speed", [("meters/second", 1), ("kilometers/second", 1e3)]),
  ("frequency", [("hertz", 1), ("kilometers/second/megaparsec", 3.086e19)]),
  ("angular_speed", [("degrees/second", 1), ("arcseconds/year", 87660)]),
  ("mass", [("grams", 1e-3), ("kilograms", 1), ("M⊙", 1.9891e30)])]

/-- units.mjs lines 66-67:
`Object.keys(units).find(kind => Object.keys(units[kind]).includes(unit))`
— yields `none` (JS `undefined`) when the unit is not declared in any
kind; no error is raised. -/
def kindOfUnit (u : String) : Option String :=
  (units.find? fun kv => kv.2.any fun p => p.1 == u).map Prod.fst

/-- units.mjs line 69: `units[kindOfUnit(unit)][unit]`.  When
`kindOfUnit` is `undefined`, the property access on `undefined` throws a
TypeError; the fallible access is modeled as `none`. -/
def factorOfUnit (u : String) : Option ℚ :=
  (kindOfUnit u).bind fun k =>
    (units.find? fun kv => kv.1 == k).bind fun kv =>
      (kv.2.find? fun p => p.1 == u).map Prod.snd

/-- part_000 lines 116-117: the unit-update half of `ChangeUnit` — set
the new unit and recompute
`unit_ratio = factorOfUnit(unit) / factorOfUnit(default_unit)`.  A
throwing factor lookup is modeled as `none`. -/
def ChangeUnitVar (v : Var ℚ) (newUnit : String) : Option (Var ℚ) := do
  let fn ← factorOfUnit newUnit
  let fd ← v.default_unit.bind factorOfUnit
  pure { v with unit := some newUnit, unit_ratio := fn / fd }

/-- part_000 lines 111-119, `ChangeUnit`: update the variable's unit and
ratio, then run `Calculate` with `self = true`.  The synthetic select
event has no `name`, so it writes only the junk property
(`Edit.unitSel`).  A throwing lookup aborts the action with no state
change (`none`). -/
def ChangeUnit (form : Form ℚ) (vid : String) (newUnit : String) : Option (Form ℚ) := do
  let v2 ← ChangeUnitVar (form.vars vid) newUnit
  let f1 : Form ℚ := { form with vars := fun j => if j = vid then v2 else form.vars j }
  pure (Calculate f1 vid Edit.unitSel true)

/-- A placeholder record for identifiers outside a form's variable set
(JavaScript would yield `undefined`; no modeled code path reads these
fields). -/
def defaultVar : Var K :=
  { value := none, mantissa := none, exponent := none, unit := none,
    default_unit := none, unit_ratio := 1, formula := fun _ => none,
    prefix_marker := "" }

/-- part_001 lines 15-40, the distance-modulus form, in its state after
the startup preprocessing (part_000 lines 26-46): mantissa/exponent are
`num_to_scientific` of the initial value, `unit_ratio = 1`,
`default_unit = unit`, markers from the order positions.  `log10` and
`tenpow` stand for part_001's `log10 = Math.log(x)/Math.log(10)` and the
`10 ** x` operator; a logarithm of a nonpositive number is non-finite in
JS, hence the guard yielding `none`. -/
def distanceModulus (log10 tenpow : K → K) : Form K :=
  { ids := ["m", "M", "d"]
    order := ["d", "M", "m"]
    vars := fun j =>
      if j = "m" then
        { value := some 5, mantissa := some 5, exponent := some 0,
          unit := none, default_unit := none, unit_ratio := 1,
          formula := fun s => do
            let d ← s "d"
            let M ← s "M"
            if d ≤ 0 then none else pure ((5 * log10 d - 5) + M),
          prefix_marker := "➡️" }
      else if j = "M" then
        { value := some (-5), mantissa := some (-5), exponent := some 0,
          unit := none, default_unit := none, unit_ratio := 1,
          formula := fun s => do
            let d ← s "d"
            let m ← s "m"
            if d ≤ 0 then none else pure (m - (5 * log10 d - 5)),
          prefix_marker := "" }
      else if j = "d" then
        { value := some 1000, mantissa := some 1, exponent := some 3,
          unit := some "parsecs", default_unit := some "parsecs", unit_ratio := 1,
          formula := fun s => do
            let m ← s "m"
            let M ← s "M"
            pure (tenpow ((m - M + 5) / 5)),
          prefix_marker := "⭐" }
      else defaultVar }

/-- part_001 lines 41-68, the small-angle form after preprocessing; the
formulas are rational, so the form lives over ℚ.  A division whose
denominator is the zero of a snapshot variable is non-finite in JS,
hence the guards. -/
def smallAngle : Form ℚ :=
  { ids := ["θ", "d", "D"]
    order := ["D", "d", "θ"]
    vars := fun j =>
      if j = "θ" then
        { value := some 10, mantissa := some 1, exponent := some 1,
          unit := some "arcseconds", default_unit := some "arcseconds", unit_ratio := 1,
          formula := fun s => do
            let d ← s "d"
            let D ← s "D"
            if D = 0 then none else pure (206265 * d / D),
          prefix_marker := "➡️" }
      else if j = "d" then
        { value := some 5, mantissa := some 5, exponent := some 0,
          unit := some "centimeters", default_unit := some "centimeters", unit_ratio := 1,
          formula := fun s => do
            let θ ← s "θ"
            let D ← s "D"
            pure (θ * D / 206265),
          prefix_marker := "" }
      else if j = "D" then
        { value := some 1e5, mantissa := some 1, exponent := some 5,
          unit := some "centimeters", default_unit := some "centimeters", unit_ratio := 1,
          formula := fun s => do
            let θ ← s "θ"
            let d ← s "d"
            if θ = 0 then none else pure (d * 206265 / θ),
          prefix_marker := "⭐" }
      else defaultVar }

/-- The consistency relation of spec §3: whenever the stored value is
finite, mantissa and exponent are present and reproduce it through the
unit ratio, up to the 5-significant-digit rounding of the mantissa. -/
def VarOK (v : Var K) : Prop :=
  ∀ x : K, v.value = some x →
    ∃ m e, v.mantissa = some m ∧ v.exponent = some e ∧
      |x - m * (10:K) ^ e * v.unit_ratio| ≤ |x| / 20000

theorem some_beq_some (a b : String) : ((some a == some b) : Bool) = (a == b) := rfl

theorem Calculate_guard_true (form : Form K) (vid : String) (ed : Edit K) (self : Bool)
    (hg : guardOK (editApply form vid ed) = true) :
    Calculate form vid ed self =
      { editApply form vid ed with
        vars := (calcLoop vid self (editApply form vid ed).order
          (editApply form vid ed).vars (snapshotOf (editApply form vid ed))).1 } := by
  simp [Calculate, hg]

theorem Calculate_guard_false (form : Form K) (vid : String) (ed : Edit K) (self : Bool)
    (hg : guardOK (editApply form vid ed) = false) :
    Calculate form vid ed self = editApply form vid ed := by
  simp [Calculate, hg]

theorem calcLoop_unit_ratio (vid : String) (self : Bool) (l : List String)
    (vars : String → Var K) (snap : String → Option K) (j : String) :
    ((calcLoop vid self l vars snap).1 j).unit_ratio = (vars j).unit_ratio := by
  induction l generalizing vars snap with
  | nil => rfl
  | cons id rest ih =>
    rw [calcLoop]
    split
    · exact ih vars snap
    · rw [ih]
      by_cases h : j = id <;> simp [h]

theorem calcLoop_not_mem (vid : String) (self : Bool) (l : List String)
    (vars : String → Var K) (snap : String → Option K) (j : String) (hj : j ∉ l) :
    (calcLoop vid self l vars snap).1 j = vars j := by
  induction l generalizing vars snap with
  | nil => rfl
  | cons id rest ih =>
    have hji : j ≠ id := fun h => hj (h ▸ List.mem_cons_self id rest)
    have hjr : j ∉ rest := fun h => hj (List.mem_cons_of_mem _ h)
    rw [calcLoop]
    split
    · exact ih vars snap hjr
    · rw [ih _ _ hjr]
      simp [hji]

theorem calcLoop_skipped (vid : String) (l : List String)
    (vars : String → Var K) (snap : String → Option K) :
    (calcLoop vid false l vars snap).1 vid = vars vid := by
  induction l generalizing vars snap with
  | nil => rfl
  | cons id rest ih =>
    rw [calcLoop]
    by_cases h : id = vid
    · rw [if_pos ⟨h, rfl⟩]
      exact ih vars snap
    · rw [if_neg (by simp [h])]
      rw [ih]
      simp [Ne.symm h]

theorem sci_ratio_bound (r x : K) (hr : 0 < r) :
    |x - (num_to_scientific (x / r)).1 * (10:K) ^ (num_to_scientific (x / r)).2 * r|
      ≤ |x| / 20000 := by
  have hd : (num_to_scientific (x / r)).1 * (10:K) ^ (num_to_scientific (x / r)).2
      = round5 (x / r) := denormalize_num_to_scientific (x / r)
  rw [hd]
  have hb := abs_round5_sub (x / r)
  have hrne : r ≠ 0 := ne_of_gt hr
  have hkey : x - round5 (x / r) * r = (x / r - round5 (x / r)) * r := by
    rw [sub_mul, div_mul_cancel₀ _ hrne]
  rw [hkey, abs_mul, abs_of_pos hr, abs_sub_comm]
  have habs : |x / r| = |x| / r := by
    rw [abs_div, abs_of_pos hr]
  calc |round5 (x / r) - x / r| * r ≤ (|x / r| / 20000) * r :=
        mul_le_mul_of_nonneg_right hb (le_of_lt hr)
    _ = |x| / 20000 := by rw [habs]; field_simp; ring

theorem setValue_ok (w : Var K) : VarOK (setValue w) := by
  intro x hx
  rcases hm : w.mantissa with _ | m
  · simp [setValue, hm] at hx
  · rcases he : w.exponent with _ | e
    · simp [setValue, hm, he] at hx
    · refine ⟨m, e, by simp [setValue, hm], by simp [setValue, he], ?_⟩
      have hval : x = m * (10:K) ^ e * w.unit_ratio := by
        simp [setValue, hm, he, Option.pure_def] at hx
        exact hx.symm
      have hratio : (setValue w).unit_ratio = w.unit_ratio := rfl
      rw [hratio, hval, sub_self, abs_zero]
      positivity

theorem setValue_applyEdit_unit_ratio (v : Var K) (ed : Edit K) :
    (setValue (applyEdit v ed)).unit_ratio = v.unit_ratio := by
  cases ed <;> rfl

theorem written_var_ok (vars : String → Var K) (id : String)
    (snap : String → Option K) (hr : 0 < (vars id).unit_ratio) :
    VarOK (K := K)
      { vars id with
        value := (vars id).formula snap
        mantissa := (num_to_scientificO ((vars id).formula snap |>.bind fun x =>
          if (vars id).unit_ratio = 0 then none else some (x / (vars id).unit_ratio))).1
        exponent := (num_to_scientificO ((vars id).formula snap |>.bind fun x =>
          if (vars id).unit_ratio = 0 then none else some (x / (vars id).unit_ratio))).2 } := by
  intro x hx
  have hval : (vars id).formula snap = some x := hx
  have hrne : (vars id).unit_ratio ≠ 0 := ne_of_gt hr
  refine ⟨(num_to_scientific (x / (vars id).unit_ratio)).1,
    (num_to_scientific (x / (vars id).unit_ratio)).2, ?_, ?_, ?_⟩
  · simp [hval, hrne, num_to_scientificO]
  · simp [hval, hrne, num_to_scientificO]
  · exact sci_ratio_bound (vars id).unit_ratio x hr

theorem calcLoop_mem_ok (vid : String) (self : Bool) (l : List String)
    (vars : String → Var K) (snap : String → Option K) (j : String)
    (hj : j ∈ l) (hskip : ¬(j = vid ∧ self = false))
    (hr : 0 < (vars j).unit_ratio) :
    VarOK ((calcLoop vid self l vars snap).1 j) := by
  induction l generalizing vars snap with
  | nil => cases hj
  | cons id rest ih =>
    rw [calcLoop]
    by_cases hsk : id = vid ∧ self = false
    · rw [if_pos hsk]
      have hjr : j ∈ rest := by
        rcases List.mem_cons.mp hj with h | h
        · exact absurd (h ▸ hsk) hskip
        · exact h
      exact ih vars snap hjr hr
    · rw [if_neg hsk]
      by_cases hjr : j ∈ rest
      · refine ih _ _ hjr ?_
        by_cases hji : j = id <;> simp [hji, hr]
        exact hji ▸ hr
      · have hji : j = id := by
          rcases List.mem_cons.mp hj with h | h
          · exact h
          · exact absurd h hjr
        subst hji
        rw [calcLoop_not_mem _ _ _ _ _ _ hjr]
        simp only [if_pos rfl]
        exact written_var_ok vars j snap hr

/-- C1: for every formula and every variable, after every completed
Recalculate pass (one where the non-finite guard did not abort
propagation), each variable's stored fields satisfy
`value == mantissa * 10^exponent * unit_ratio` up to the
5-significant-digit rounding applied to the mantissa (relative error at
most `|value| / 20000`, half an ulp at 5 significant digits). -/
theorem c1_value_invariant (form : Form K) (vid : String) (ed : Edit K) (self : Bool)
    (hguard : guardOK (editApply form vid ed) = true)
    (hcover : ∀ id ∈ form.ids, id ∈ form.order)
    (hratio : ∀ id ∈ form.ids, 0 < (form.vars id).unit_ratio) :
    ∀ id ∈ form.ids, VarOK ((Calculate form vid ed self).vars id) := by
  intro id hid
  have hres : (Calculate form vid ed self).vars =
      (calcLoop vid self (editApply form vid ed).order (editApply form vid ed).vars
        (snapshotOf (editApply form vid ed))).1 := by
    rw [Calculate]
    simp only [hguard, if_true]
  rw [hres]
  have hr1 : 0 < ((editApply form vid ed).vars id).unit_ratio := by
    have h0 := hratio id hid
    by_cases h : id = vid
    · simp only [editApply, if_pos h]
      rw [setValue_applyEdit_unit_ratio]
      exact h0
    · simp only [editApply, if_neg h]
      exact h0
  by_cases hsk : id = vid ∧ self = false
  · rcases hsk with ⟨h1, h2⟩
    rw [h1, h2, calcLoop_skipped]
    have hv : (editApply form vid ed).vars vid = setValue (applyEdit (form.vars vid) ed) := by
      simp [editApply]
    rw [hv]
    exact setValue_ok _
  · exact calcLoop_mem_ok vid self _ _ _ id
      (by simp only [editApply]; exact hcover id hid) hsk hr1

/-- A minimal two-variable test form over ℚ: `a` (first in order) and
`b`, each deriving from the other, unit ratios 1. -/
def pairForm : Form ℚ :=
  { ids := ["a", "b"]
    order := ["a", "b"]
    vars := fun j =>
      if j = "a" then
        { value := some 2, mantissa := some 2, exponent := some 0, unit := none,
          default_unit := none, unit_ratio := 1, formula := fun s => s "b",
          prefix_marker := "⭐" }
      else if j = "b" then
        { value := some 7, mantissa := some 7, exponent := some 0, unit := none,
          default_unit := none, unit_ratio := 1, formula := fun s => s "a",
          prefix_marker := "➡️" }
      else defaultVar }

/-- `pairForm` with `b`'s stored value non-finite, as after a mid-edit
transient (e.g. a lone minus sign typed into `b`). -/
def pairFormBad : Form ℚ :=
  { pairForm with
    vars := fun j =>
      if j = "b" then { pairForm.vars "b" with value := none }
      else pairForm.vars j }

/-- Witness for C1: the invariant holds concretely after editing `a`'s
mantissa in the two-variable form. -/
theorem c1_value_invariant_witness :
    guardOK (editApply pairForm "a" (Edit.mantissa (some 3))) = true ∧
    (∀ id ∈ pairForm.ids, id ∈ pairForm.order) ∧
    (∀ id ∈ pairForm.ids, 0 < (pairForm.vars id).unit_ratio) ∧
    ∀ id ∈ pairForm.ids,
      VarOK ((Calculate pairForm "a" (Edit.mantissa (some 3)) false).vars id) :=
  ⟨by decide, by decide, by decide,
    c1_value_invariant pairForm "a" (Edit.mantissa (some 3)) false
      (by decide) (by decide) (by decide)⟩

/-- C2: if in the snapshot built by Recalculate (after the edit was
applied) some variable other than `order[0]` holds a non-finite value,
the propagation step is aborted, and every variable other than the
edited one keeps its entire pre-call record — in particular its mantissa
and exponent — unchanged. -/
theorem c2_guard_aborts (form : Form K) (vid : String) (ed : Edit K) (self : Bool)
    (h : ∃ j ∈ form.ids, form.order.head? ≠ some j ∧
      snapshotOf (editApply form vid ed) j = none) :
    ∀ id, id ≠ vid → (Calculate form vid ed self).vars id = form.vars id := by
  have hg : guardOK (editApply form vid ed) = false := by
    rcases h with ⟨j, hj, hne, hnone⟩
    apply List.all_eq_false.mpr
    refine ⟨j, hj, ?_⟩
    have h1 : ((editApply form vid ed).order.head? == some j) = false := by
      have horder : (editApply form vid ed).order = form.order := rfl
      rw [horder, beq_eq_false_iff_ne]
      exact hne
    simp [h1, hnone]
  intro id hid
  simp only [Calculate, hg, Bool.false_eq_true, if_false]
  simp [editApply, hid]

/-- Witness for C2: with `b` non-finite, editing `a` leaves `b`'s record
untouched. -/
theorem c2_guard_aborts_witness :
    ("b" ∈ pairFormBad.ids ∧ pairFormBad.order.head? ≠ some "b" ∧
      snapshotOf (editApply pairFormBad "a" (Edit.mantissa (some 3))) "b" = none) ∧
    (Calculate pairFormBad "a" (Edit.mantissa (some 3)) false).vars "b" =
      pairFormBad.vars "b" :=
  ⟨⟨by decide, by decide, by rfl⟩,
    c2_guard_aborts pairFormBad "a" (Edit.mantissa (some 3)) false
      ⟨"b", by decide, by decide, by rfl⟩ "b" (by decide)⟩

/-- C9: when recalculating with `self = true` and the edited variable is
the head of `order`, the walk does not exempt it: its stored value is
overwritten by its own formula applied to the snapshot, so a committed
edit to the chain's first variable can be replaced by a value derived
from the other variables rather than kept as entered. -/
theorem c9_first_overwritten (form : Form K) (vid : String) (ed : Edit K)
    (rest : List String) (horder : form.order = vid :: rest) (hrest : vid ∉ rest)
    (hguard : guardOK (editApply form vid ed) = true) :
    ((Calculate form vid ed true).vars vid).value =
      ((editApply form vid ed).vars vid).formula (snapshotOf (editApply form vid ed)) := by
  simp only [Calculate, hguard, if_true]
  have horder2 : (editApply form vid ed).order = vid :: rest := horder
  rw [horder2, calcLoop]
  rw [if_neg (by simp)]
  rw [calcLoop_not_mem _ _ _ _ _ _ hrest]
  simp

/-- Witness for C9: committing an edit of `a` (head of the chain, entered
mantissa 3) overwrites `a` with its own formula's result. -/
theorem c9_first_overwritten_witness :
    pairForm.order = "a" :: ["b"] ∧ "a" ∉ ["b"] ∧
    guardOK (editApply pairForm "a" (Edit.mantissa (some 3))) = true ∧
    ((Calculate pairForm "a" (Edit.mantissa (some 3)) true).vars "a").value =
      ((editApply pairForm "a" (Edit.mantissa (some 3))).vars "a").formula
        (snapshotOf (editApply pairForm "a" (Edit.mantissa (some 3)))) :=
  ⟨rfl, by decide, by decide,
    c9_first_overwritten pairForm "a" (Edit.mantissa (some 3)) ["b"] rfl
      (by decide) (by decide)⟩

/-- C7: the scientific codec round-trips: `normalize 0 = (0, 0)`
exactly, and for every finite `x` the denormalization of
`num_to_scientific x` differs from `x` by at most the
5-significant-digit rounding of the mantissa (relative error at most
`|x| / 20000`, half an ulp at 5 significant digits). -/
theorem c7_codec_roundtrip :
    num_to_scientific (0:ℚ) = (0, 0) ∧
    ∀ x : ℚ, |denormalize (num_to_scientific x) - x| ≤ |x| / 20000 := by
  constructor
  · simp [num_to_scientific, round5]
  · intro x
    rw [denormalize_num_to_scientific]
    exact abs_round5_sub x

theorem setPrefixesAux_apply (order l : List String) (vars : String → Var K) (j : String) :
    setPrefixesAux order l vars j =
      if j ∈ l then { vars j with prefix_marker := prefixFor order j } else vars j := by
  induction l generalizing vars with
  | nil => simp [setPrefixesAux]
  | cons id rest ih =>
    rw [setPrefixesAux, ih]
    by_cases hid : j = id
    · subst hid
      by_cases hr : j ∈ rest <;> simp [hr]
    · by_cases hr : j ∈ rest <;> simp [hr, hid]

/-- C10: `Reorder` is idempotent — reordering the same present variable
twice yields exactly the same form (same order sequence, same markers on
every variable) as reordering it once. -/
theorem c10_reorder_idempotent (form : Form K) (v : String)
    (hv : v ∈ form.order) (hnd : form.order.Nodup) :
    Reorder (Reorder form v) v = Reorder form v := by
  have hnotin : v ∉ form.order.erase v := fun hmem =>
    ((hnd.mem_erase_iff).mp hmem).1 rfl
  have hv2 : v ∈ moveToLast form.order v := by
    simp [moveToLast, hv]
  have horder : moveToLast (moveToLast form.order v) v = moveToLast form.order v := by
    conv_lhs => rw [moveToLast]
    rw [if_pos hv2, moveToLast, if_pos hv,
      List.erase_append_right _ hnotin]
    simp
  simp only [Reorder]
  rw [horder]
  congr 1
  funext j
  simp only [setPrefixesAux_apply]
  by_cases hj : j ∈ moveToLast form.order v <;> simp [hj]

/-- Witness for C10 on the concrete two-variable form. -/
theorem c10_reorder_idempotent_witness :
    "b" ∈ pairForm.order ∧ pairForm.order.Nodup ∧
    Reorder (Reorder pairForm "b") "b" = Reorder pairForm "b" :=
  ⟨by decide, by decide,
    c10_reorder_idempotent pairForm "b" (by decide) (by decide)⟩

/-- Counterexample for C6 as stated: when the focused variable is
already last (here `b` in order `[a, b]`), `Reorder` leaves the order
unchanged, and the element that was previously last (`b` itself) is not
directly before `b` — there is no decomposition `pre ++ [b, b]`. -/
theorem c6_reorder_counterexample :
    pairForm.order.getLast? = some "b" ∧
    (Reorder pairForm "b").order = ["a", "b"] ∧
    ¬ ∃ pre : List String, (Reorder pairForm "b").order = pre ++ ["b", "b"] := by
  have horder : (Reorder pairForm "b").order = ["a", "b"] := by decide
  refine ⟨rfl, horder, ?_⟩
  rintro ⟨pre, h⟩
  rw [horder] at h
  rcases pre with _ | ⟨x, pre⟩
  · simp at h
  · rcases pre with _ | ⟨y, pre⟩
    · simp at h
    · simp at h

/-- C6 (amended): for a duplicate-free order of length at least 2 and a
focused variable `v` that is not already last, after `Reorder` the last
element is `v`, the previously-last element is directly before it, the
relative order of all other elements is preserved, and the start/end
markers sit exactly on the first/last positions, all others empty.  (As
stated the claim also covered `v` already last, where the
previously-last element — `v` itself — cannot be directly before `v`.) -/
theorem c6_reorder_correct (form : Form K) (v w : String)
    (hv : v ∈ form.order) (hnd : form.order.Nodup) (hlen : 2 ≤ form.order.length)
    (hw : form.order.getLast? = some w) (hvw : v ≠ w) :
    (Reorder form v).order.getLast? = some v ∧
    (∃ pre, (Reorder form v).order = pre ++ [w, v]) ∧
    (Reorder form v).order.filter (fun x => x ≠ v) =
      form.order.filter (fun x => x ≠ v) ∧
    ∀ id ∈ (Reorder form v).order,
      (((Reorder form v).vars id).prefix_marker = "⭐" ↔
        (Reorder form v).order.indexOf id = 0) ∧
      (((Reorder form v).vars id).prefix_marker = "➡️" ↔
        (Reorder form v).order.indexOf id = (Reorder form v).order.length - 1) ∧
      (((Reorder form v).vars id).prefix_marker = "" ↔
        ((Reorder form v).order.indexOf id ≠ 0 ∧
          (Reorder form v).order.indexOf id ≠ (Reorder form v).order.length - 1)) := by
  have horder : (Reorder form v).order = form.order.erase v ++ [v] := by
    simp [Reorder, moveToLast, hv]
  have hne : form.order ≠ [] := by
    intro h
    rw [h] at hw
    simp at hw
  have hwlast : w = form.order.getLast hne := by
    have h1 := List.getLast?_eq_getLast_of_ne_nil hne
    rw [hw] at h1
    exact Option.some.inj h1
  have hsplit : form.order.dropLast ++ [w] = form.order := by
    rw [hwlast]
    exact List.dropLast_append_getLast hne
  have hvin : v ∈ form.order.dropLast := by
    have hv2 := hv
    rw [← hsplit] at hv2
    rcases List.mem_append.mp hv2 with h | h
    · exact h
    · rw [List.mem_singleton] at h
      exact absurd h hvw
  have herase : form.order.erase v = form.order.dropLast.erase v ++ [w] := by
    conv_lhs => rw [← hsplit]
    exact List.erase_append_left _ hvin
  have hlen2 : (Reorder form v).order.length = form.order.length := by
    rw [horder, List.length_append, List.length_singleton,
      List.length_erase_add_one hv]
  refine ⟨?_, ?_, ?_, ?_⟩
  · rw [horder]
    exact List.getLast?_concat _
  · refine ⟨form.order.dropLast.erase v, ?_⟩
    rw [horder, herase, List.append_assoc]
    rfl
  · rw [horder, List.filter_append]
    have hx : List.filter (fun x => x ≠ v) [v] = [] := by simp
    rw [hx, List.append_nil, hnd.erase_eq_filter, List.filter_filter]
    apply List.filter_congr
    intro a _
    by_cases h : a = v <;> simp [h]
  · intro id hid
    have hvars : ((Reorder form v).vars id).prefix_marker =
        prefixFor ((Reorder form v).order) id := by
      have : (Reorder form v).vars id =
          { form.vars id with
            prefix_marker := prefixFor (moveToLast form.order v) id } := by
        simp only [Reorder, setPrefixesAux_apply]
        rw [if_pos]
        exact hid
      rw [this]
      rfl
    have hdenom : (Reorder form v).order.length - 1 ≠ 0 := by
      rw [hlen2]
      omega
    rw [hvars]
    unfold prefixFor
    rw [if_neg hdenom]
    by_cases hA : (Reorder form v).order.indexOf id = (Reorder form v).order.length - 1
    · have hB : (Reorder form v).order.indexOf id ≠ 0 := by
        rw [hA]
        exact hdenom
      rw [if_pos hA]
      refine ⟨?_, ?_, ?_⟩ <;> simp [hA, hB, hdenom]
    · rw [if_neg hA]
      by_cases hB : (Reorder form v).order.indexOf id = 0
      · rw [if_pos hB]
        refine ⟨?_, ?_, ?_⟩ <;> simp [hA, hB, hdenom, Ne.symm hdenom]
      · rw [if_neg hB]
        refine ⟨?_, ?_, ?_⟩ <;> simp [hA, hB, hdenom]

/-- Witness for C6 (amended): reordering `a` in the two-variable form
moves it behind `b`. -/
theorem c6_reorder_correct_witness :
    ("a" ∈ pairForm.order ∧ pairForm.order.Nodup ∧ 2 ≤ pairForm.order.length ∧
      pairForm.order.getLast? = some "b" ∧ "a" ≠ "b") ∧
    (Reorder pairForm "a").order.getLast? = some "a" :=
  ⟨⟨by decide, by decide, by decide, rfl, by decide⟩,
    (c6_reorder_correct pairForm "a" "b" (by decide) (by decide) (by decide) rfl
      (by decide)).1⟩

/-- Counterexample for C8 as stated: looking up an undeclared unit does
not fail with an error — `kindOfUnit` silently returns the absent value
(JS `undefined`, modeled `none`), and `factorOfUnit` consequently has no
numeric result either. -/
theorem c8_unit_lookup_counterexample :
    kindOfUnit "cubits" = none ∧ factorOfUnit "cubits" = none := by
  constructor <;> decide

/-- C8 (amended): for every unit identifier declared in no kind of the
registry, `kindOfUnit` returns no kind — JS `undefined`, never a
defaulted kind — and `factorOfUnit` then has no numeric result (its
dereference of `undefined` is what throws, downstream in the caller);
the lookup itself raises nothing. -/
theorem c8_unit_not_found (u : String)
    (h : ∀ kv ∈ units, ∀ p ∈ kv.2, p.1 ≠ u) :
    kindOfUnit u = none ∧ factorOfUnit u = none := by
  have hk : kindOfUnit u = none := by
    unfold kindOfUnit
    rw [List.find?_eq_none.mpr]
    · rfl
    · intro kv hkv
      rw [Bool.not_eq_true, List.any_eq_false]
      intro p hp
      rw [Bool.not_eq_true]
      exact beq_eq_false_iff_ne.mpr (h kv hkv p hp)
  refine ⟨hk, ?_⟩
  unfold factorOfUnit
  rw [hk]
  rfl

/-- Witness for C8 (amended) at the undeclared unit `furlongs`. -/
theorem c8_unit_not_found_witness :
    (∀ kv ∈ units, ∀ p ∈ kv.2, p.1 ≠ "furlongs") ∧
    kindOfUnit "furlongs" = none ∧ factorOfUnit "furlongs" = none :=
  ⟨by decide, c8_unit_not_found "furlongs" (by decide)⟩

/-- Counterexample for C3 as stated: in the small-angle form, changing
θ's unit from arcseconds to arcminutes (displayed mantissa 1, exponent 1
untouched) changes its stored value from 10 to 60 — the displayed
number is reinterpreted under the new unit, not preserved. -/
theorem c3_unit_change_counterexample :
    (ChangeUnit smallAngle "θ" "arcminutes").map (fun f => (f.vars "θ").value)
      = some (some 60) ∧
    (smallAngle.vars "θ").value = some 10 ∧
    some (60:ℚ) ≠ some (10:ℚ) := by
  refine ⟨?_, rfl, by norm_num⟩
  have hv2 : ChangeUnitVar (smallAngle.vars "θ") "arcminutes" =
      some { smallAngle.vars "θ" with
             unit := some "arcminutes"
             unit_ratio := (1:ℚ)/60 / (1/360) } := by rfl
  rw [ChangeUnit, hv2]
  simp only [Option.some_bind, Option.pure_def, Option.map_some]
  simp [Calculate, editApply, guardOK, snapshotOf, calcLoop, setValue, applyEdit,
    smallAngle, defaultVar, some_beq_some]
  norm_num

/-- C3 (amended): `ChangeUnit` leaves the variable's displayed mantissa
and exponent unchanged and recomputes
`unit_ratio = factorOf(new_unit) / factorOf(default_unit)`, but the
stored value is *reinterpreted* under the new unit rather than
preserved: when the non-finite guard aborts the subsequent propagation,
the returned record holds `value = mantissa * 10^exponent * new_ratio`
(which differs from the previous value whenever the two units' factors
differ); when propagation runs, the value is then further overwritten by
the variable's formula. -/
theorem c3_unit_change_reinterprets (form : Form ℚ) (vid newUnit : String)
    (fn fd m : ℚ) (e : ℤ)
    (hfn : factorOfUnit newUnit = some fn)
    (hfd : (form.vars vid).default_unit.bind factorOfUnit = some fd)
    (hm : (form.vars vid).mantissa = some m)
    (he : (form.vars vid).exponent = some e)
    (h : ∃ j ∈ form.ids, form.order.head? ≠ some j ∧ j ≠ vid ∧
      (form.vars j).value = none) :
    (ChangeUnit form vid newUnit).map (fun f2 =>
        ((f2.vars vid).mantissa, (f2.vars vid).exponent,
         (f2.vars vid).unit_ratio, (f2.vars vid).value))
      = some (some m, some e, fn / fd, some (m * (10:ℚ) ^ e * (fn / fd))) := by
  have hv2 : ChangeUnitVar (form.vars vid) newUnit =
      some { form.vars vid with unit := some newUnit, unit_ratio := fn / fd } := by
    rw [ChangeUnitVar, hfn, hfd]
    rfl
  rw [ChangeUnit, hv2]
  simp only [Option.bind_eq_bind, Option.some_bind, Option.pure_def, Option.map_some]
  rw [Calculate_guard_false]
  · simp [editApply, applyEdit, setValue, hm, he]
  · rcases h with ⟨j, hj, hne, hjv, hnone⟩
    apply List.all_eq_false.mpr
    refine ⟨j, hj, ?_⟩
    rw [Bool.not_eq_true]
    have h1 : (form.order.head? == some j) = false := beq_eq_false_iff_ne.mpr hne
    simp [snapshotOf, editApply, hjv, hnone, hj, h1]

/-- A two-variable form with a unit-bearing first variable and a
non-finite second variable (mid-edit transient), for exercising an
aborted unit change. -/
def pairFormUnitBad : Form ℚ :=
  { ids := ["a", "b"]
    order := ["a", "b"]
    vars := fun j =>
      if j = "a" then
        { value := some 2, mantissa := some 2, exponent := some 0,
          unit := some "meters", default_unit := some "meters", unit_ratio := 1,
          formula := fun s => s "b", prefix_marker := "⭐" }
      else if j = "b" then
        { value := none, mantissa := some 7, exponent := some 0, unit := none,
          default_unit := none, unit_ratio := 1, formula := fun s => s "a",
          prefix_marker := "➡️" }
      else defaultVar }

/-- Witness for C3 (amended): switching `a` from meters to kilometers
while `b` is non-finite rescales `a`'s stored value by 1000. -/
theorem c3_unit_change_reinterprets_witness :
    (factorOfUnit "kilometers" = some 1e3 ∧
      (pairFormUnitBad.vars "a").default_unit.bind factorOfUnit = some 1 ∧
      (pairFormUnitBad.vars "a").mantissa = some 2 ∧
      (pairFormUnitBad.vars "a").exponent = some 0 ∧
      "b" ∈ pairFormUnitBad.ids ∧ pairFormUnitBad.order.head? ≠ some "b" ∧
      "b" ≠ "a" ∧ (pairFormUnitBad.vars "b").value = none) ∧
    (ChangeUnit pairFormUnitBad "a" "kilometers").map (fun f2 =>
        ((f2.vars "a").mantissa, (f2.vars "a").exponent,
         (f2.vars "a").unit_ratio, (f2.vars "a").value))
      = some (some 2, some 0, 1e3 / 1, some (2 * (10:ℚ) ^ (0:ℤ) * (1e3 / 1))) :=
  ⟨⟨by rfl, by rfl, by rfl, by rfl, by decide, by decide, by decide, by rfl⟩,
    c3_unit_change_reinterprets pairFormUnitBad "a" "kilometers" 1e3 1 2 0
      (by rfl) (by rfl) (by rfl) (by rfl)
      ⟨"b", by decide, by decide, by decide, by rfl⟩⟩

theorem calcLoop_cons_skip (vid : String) (self : Bool) (id : String)
    (rest : List String) (vars : String → Var K) (snap : String → Option K)
    (h : id = vid ∧ self = false) :
    calcLoop vid self (id :: rest) vars snap = calcLoop vid self rest vars snap := by
  rw [calcLoop, if_pos h]

theorem calcLoop_cons_write (vid : String) (self : Bool) (id : String)
    (rest : List String) (vars : String → Var K) (snap : String → Option K)
    (h : ¬(id = vid ∧ self = false)) :
    calcLoop vid self (id :: rest) vars snap =
      calcLoop vid self rest
        (fun j => if j = id then
          { vars id with
            value := (vars id).formula snap
            mantissa := (num_to_scientificO (((vars id).formula snap).bind fun x =>
              if (vars id).unit_ratio = 0 then none
              else some (x / (vars id).unit_ratio))).1
            exponent := (num_to_scientificO (((vars id).formula snap).bind fun x =>
              if (vars id).unit_ratio = 0 then none
              else some (x / (vars id).unit_ratio))).2 }
          else vars j)
        (fun j => if j = id then (vars id).formula snap else snap j) := by
  rw [calcLoop, if_neg h]

theorem setValue_applyEdit_formula (v : Var K) (ed : Edit K) :
    (setValue (applyEdit v ed)).formula = v.formula := by
  cases ed <;> rfl

theorem setValue_applyEdit_idem (v : Var K) (ed : Edit K) :
    setValue (applyEdit (setValue (applyEdit v ed)) ed) = setValue (applyEdit v ed) := by
  cases ed <;> rfl

/-- A three-variable test form over ℚ with an inconsistent head formula:
`A`'s own formula ignores the others and returns 999, `B` copies `A`,
`C` adds `A` and `B`. -/
def tripleFormBad : Form ℚ :=
  { ids := ["A", "B", "C"]
    order := ["A", "B", "C"]
    vars := fun j =>
      if j = "A" then
        { value := some 2, mantissa := some 2, exponent := some 0, unit := none,
          default_unit := none, unit_ratio := 1, formula := fun _ => some 999,
          prefix_marker := "⭐" }
      else if j = "B" then
        { value := some 2, mantissa := some 2, exponent := some 0, unit := none,
          default_unit := none, unit_ratio := 1, formula := fun s => s "A",
          prefix_marker := "" }
      else if j = "C" then
        { value := some 4, mantissa := some 4, exponent := some 0, unit := none,
          default_unit := none, unit_ratio := 1,
          formula := fun s => do
            let x ← s "A"
            let y ← s "B"
            pure (x + y),
          prefix_marker := "➡️" }
      else defaultVar }

/-- Counterexample for C4 as stated: in `tripleFormBad` (order
`[A, B, C]`, `B = f(A) = A`, `C = g(A, B) = A + B`), after editing `A`'s
mantissa to 3 and committing, `B`'s value is 999 — the result of `f`
applied to `A`'s *recomputed* value (`A`'s own formula overwrote the
entered 3 with 999 at the head of the commit walk) — and not
`f(new A) = 3`, the value the claim demands. -/
theorem c4_chain_counterexample :
    ((Calculate (Calculate tripleFormBad "A" (Edit.mantissa (some 3)) false)
        "A" (Edit.mantissa (some 3)) true).vars "B").value = some 999 ∧
    (tripleFormBad.vars "B").formula
      (snapshotOf (editApply tripleFormBad "A" (Edit.mantissa (some 3)))) = some 3 ∧
    some (999:ℚ) ≠ some (3:ℚ) := by
  refine ⟨?_, ?_, by norm_num⟩
  · simp [Calculate, editApply, guardOK, snapshotOf, calcLoop, setValue, applyEdit,
      tripleFormBad, defaultVar, some_beq_some]
  · simp [tripleFormBad, snapshotOf, editApply, setValue, applyEdit]

theorem calcLoop_nil (vid : String) (self : Bool) (vars : String → Var K)
    (snap : String → Option K) :
    calcLoop vid self [] vars snap = (vars, snap) := rfl

/-- C4 (amended): for a formula with order `[A, B, C]` where `B`'s
formula depends only on `A` and `C`'s formula only on `A` and `B`,
editing `A`'s mantissa or exponent and committing (keystroke pass with
`self = false`, then commit pass with `self = true`) yields `B` equal to
`f` applied to the new `A` and `C` equal to `g` applied to the new `A`
and the new `B`, exactly — *provided* `A`'s own formula reproduces the
committed value on the resulting snapshot (hypothesis `hinv`).  Without
that proviso the claim fails: the commit walk first overwrites `A` with
its own formula's result (see C9), and `B`, `C` then derive from the
overwritten value, not from the entered one. -/
theorem c4_chain_exact (form : Form K) (A B C : String) (ed : Edit K) (a b c : K)
    (hids : form.ids = [A, B, C]) (horder : form.order = [A, B, C])
    (hAB : A ≠ B) (hAC : A ≠ C) (hBC : B ≠ C)
    (ha : (setValue (applyEdit (form.vars A) ed)).value = some a)
    (hdepB : ∀ s t : String → Option K, s A = t A →
      (form.vars B).formula s = (form.vars B).formula t)
    (hdepC : ∀ s t : String → Option K, s A = t A → s B = t B →
      (form.vars C).formula s = (form.vars C).formula t)
    (hB0 : ∃ y, (form.vars B).value = some y)
    (hC0 : ∃ y, (form.vars C).value = some y)
    (hb : (form.vars B).formula (snapshotOf (editApply form A ed)) = some b)
    (hc : (form.vars C).formula
      (fun j => if j = B then some b else snapshotOf (editApply form A ed) j) = some c)
    (hinv : (form.vars A).formula
      (fun j => if j = A then some a else if j = B then some b
        else if j = C then some c else none) = some a) :
    ((Calculate (Calculate form A ed false) A ed true).vars B).value = some b ∧
    ((Calculate (Calculate form A ed false) A ed true).vars C).value = some c := by
  obtain ⟨yB, hyB⟩ := hB0
  obtain ⟨yC, hyC⟩ := hC0
  have hBA : B ≠ A := Ne.symm hAB
  have hCA : C ≠ A := Ne.symm hAC
  have hCB : C ≠ B := Ne.symm hBC
  -- pass-1 groundwork: the edited form and its snapshot
  have hE1A : (editApply form A ed).vars A = setValue (applyEdit (form.vars A) ed) := by
    simp only [editApply]
    rw [if_true]
  have hE1B : (editApply form A ed).vars B = form.vars B := by
    simp only [editApply]
    rw [if_neg hBA]
  have hE1C : (editApply form A ed).vars C = form.vars C := by
    simp only [editApply]
    rw [if_neg hCA]
  have hsnapA : snapshotOf (editApply form A ed) A = some a := by
    have hmem : A ∈ (editApply form A ed).ids := by
      show A ∈ form.ids
      rw [hids]
      simp
    rw [snapshotOf, if_pos hmem, hE1A]
    exact ha
  have hsnapB : snapshotOf (editApply form A ed) B = some yB := by
    have hmem : B ∈ (editApply form A ed).ids := by
      show B ∈ form.ids
      rw [hids]
      simp
    rw [snapshotOf, if_pos hmem, hE1B]
    exact hyB
  have hsnapC : snapshotOf (editApply form A ed) C = some yC := by
    have hmem : C ∈ (editApply form A ed).ids := by
      show C ∈ form.ids
      rw [hids]
      simp
    rw [snapshotOf, if_pos hmem, hE1C]
    exact hyC
  have horder1 : (editApply form A ed).order = A :: B :: C :: [] := horder
  have hids1 : (editApply form A ed).ids = [A, B, C] := hids
  have guard1 : guardOK (editApply form A ed) = true := by
    rw [guardOK]
    simp only [hids1, horder1, List.all_cons, List.all_nil, hsnapA, hsnapB, hsnapC]
    simp
  -- pass-1 results, pointwise
  have hF1A : (Calculate form A ed false).vars A = (editApply form A ed).vars A := by
    rw [Calculate_guard_true form A ed false guard1]
    exact calcLoop_skipped A _ _ _
  have hvalBstep :
      ((editApply form A ed).vars B).formula (snapshotOf (editApply form A ed))
        = some b := by
    rw [hE1B]
    exact hb
  have hF1Bval : ((Calculate form A ed false).vars B).value = some b := by
    rw [Calculate_guard_true form A ed false guard1]
    show (((calcLoop A false (editApply form A ed).order (editApply form A ed).vars
      (snapshotOf (editApply form A ed))).1) B).value = some b
    rw [horder1]
    rw [calcLoop_cons_skip _ _ _ _ _ _ ⟨rfl, rfl⟩]
    rw [calcLoop_cons_write _ _ _ _ _ _ (by simp [hBA])]
    rw [calcLoop_cons_write _ _ _ _ _ _ (by simp [hCA])]
    rw [calcLoop_nil]
    simp only [if_neg hBC, if_pos rfl]
    exact hvalBstep
  have hF1Bform : ((Calculate form A ed false).vars B).formula
      = (form.vars B).formula := by
    rw [Calculate_guard_true form A ed false guard1]
    show (((calcLoop A false (editApply form A ed).order (editApply form A ed).vars
      (snapshotOf (editApply form A ed))).1) B).formula = (form.vars B).formula
    rw [horder1]
    rw [calcLoop_cons_skip _ _ _ _ _ _ ⟨rfl, rfl⟩]
    rw [calcLoop_cons_write _ _ _ _ _ _ (by simp [hBA])]
    rw [calcLoop_cons_write _ _ _ _ _ _ (by simp [hCA])]
    rw [calcLoop_nil]
    simp only [if_neg hBC, if_pos rfl]
    show ((editApply form A ed).vars B).formula = (form.vars B).formula
    rw [hE1B]
  have hF1Cval : ((Calculate form A ed false).vars C).value = some c := by
    rw [Calculate_guard_true form A ed false guard1]
    show (((calcLoop A false (editApply form A ed).order (editApply form A ed).vars
      (snapshotOf (editApply form A ed))).1) C).value = some c
    rw [horder1]
    rw [calcLoop_cons_skip _ _ _ _ _ _ ⟨rfl, rfl⟩]
    rw [calcLoop_cons_write _ _ _ _ _ _ (by simp [hBA])]
    rw [calcLoop_cons_write _ _ _ _ _ _ (by simp [hCA])]
    rw [calcLoop_nil]
    simp only [if_pos rfl, if_neg hCB]
    show ((editApply form A ed).vars C).formula
      (fun j => if j = B then ((editApply form A ed).vars B).formula
        (snapshotOf (editApply form A ed)) else snapshotOf (editApply form A ed) j)
      = some c
    rw [hE1C]
    simp only [hvalBstep]
    exact hc
  have hF1Cform : ((Calculate form A ed false).vars C).formula
      = (form.vars C).formula := by
    rw [Calculate_guard_true form A ed false guard1]
    show (((calcLoop A false (editApply form A ed).order (editApply form A ed).vars
      (snapshotOf (editApply form A ed))).1) C).formula = (form.vars C).formula
    rw [horder1]
    rw [calcLoop_cons_skip _ _ _ _ _ _ ⟨rfl, rfl⟩]
    rw [calcLoop_cons_write _ _ _ _ _ _ (by simp [hBA])]
    rw [calcLoop_cons_write _ _ _ _ _ _ (by simp [hCA])]
    rw [calcLoop_nil]
    simp only [if_pos rfl, if_neg hCB]
    show ((editApply form A ed).vars C).formula = (form.vars C).formula
    rw [hE1C]
  have hF1ids : (Calculate form A ed false).ids = [A, B, C] := by
    rw [Calculate_guard_true form A ed false guard1]
    exact hids
  have hF1order : (Calculate form A ed false).order = [A, B, C] := by
    rw [Calculate_guard_true form A ed false guard1]
    exact horder
  -- pass-2 groundwork
  have hE2A : (editApply (Calculate form A ed false) A ed).vars A
      = (editApply form A ed).vars A := by
    simp only [editApply]
    rw [if_true]
    show setValue (applyEdit ((Calculate form A ed false).vars A) ed) = _
    rw [hF1A, hE1A, setValue_applyEdit_idem, if_true]
  have hE2B : (editApply (Calculate form A ed false) A ed).vars B
      = (Calculate form A ed false).vars B := by
    simp only [editApply]
    rw [if_neg hBA]
  have hE2C : (editApply (Calculate form A ed false) A ed).vars C
      = (Calculate form A ed false).vars C := by
    simp only [editApply]
    rw [if_neg hCA]
  have hE2ids : (editApply (Calculate form A ed false) A ed).ids = [A, B, C] := hF1ids
  have hE2order : (editApply (Calculate form A ed false) A ed).order
      = A :: B :: C :: [] := hF1order
  have hsnapA2 : snapshotOf (editApply (Calculate form A ed false) A ed) A = some a := by
    have hmem : A ∈ (editApply (Calculate form A ed false) A ed).ids := by
      rw [hE2ids]
      simp
    rw [snapshotOf, if_pos hmem, hE2A, hE1A]
    exact ha
  have hsnapB2 : snapshotOf (editApply (Calculate form A ed false) A ed) B = some b := by
    have hmem : B ∈ (editApply (Calculate form A ed false) A ed).ids := by
      rw [hE2ids]
      simp
    rw [snapshotOf, if_pos hmem, hE2B]
    exact hF1Bval
  have hsnapC2 : snapshotOf (editApply (Calculate form A ed false) A ed) C = some c := by
    have hmem : C ∈ (editApply (Calculate form A ed false) A ed).ids := by
      rw [hE2ids]
      simp
    rw [snapshotOf, if_pos hmem, hE2C]
    exact hF1Cval
  have hsnapfun : snapshotOf (editApply (Calculate form A ed false) A ed)
      = (fun j => if j = A then some a else if j = B then some b
          else if j = C then some c else none) := by
    funext j
    by_cases hjA : j = A
    · subst hjA
      rw [hsnapA2, if_pos rfl]
    · by_cases hjB : j = B
      · subst hjB
        rw [hsnapB2, if_neg hjA, if_pos rfl]
      · by_cases hjC : j = C
        · subst hjC
          rw [hsnapC2, if_neg hjA, if_neg hjB, if_pos rfl]
        · rw [if_neg hjA, if_neg hjB, if_neg hjC, snapshotOf]
          have hnotmem : j ∉ (editApply (Calculate form A ed false) A ed).ids := by
            rw [hE2ids]
            simp [hjA, hjB, hjC]
          rw [if_neg hnotmem]
  have guard2 : guardOK (editApply (Calculate form A ed false) A ed) = true := by
    rw [guardOK]
    simp only [hE2ids, hE2order, List.all_cons, List.all_nil, hsnapA2, hsnapB2, hsnapC2]
    simp
  -- the commit-pass walk rewrites A (with its own formula), then B, then C
  have hvalA2 : ((editApply (Calculate form A ed false) A ed).vars A).formula
      (snapshotOf (editApply (Calculate form A ed false) A ed)) = some a := by
    rw [hE2A, hE1A, setValue_applyEdit_formula, hsnapfun]
    exact hinv
  rw [Calculate_guard_true (Calculate form A ed false) A ed true guard2]
  show (((calcLoop A true (editApply (Calculate form A ed false) A ed).order
      (editApply (Calculate form A ed false) A ed).vars
      (snapshotOf (editApply (Calculate form A ed false) A ed))).1) B).value = some b ∧
    (((calcLoop A true (editApply (Calculate form A ed false) A ed).order
      (editApply (Calculate form A ed false) A ed).vars
      (snapshotOf (editApply (Calculate form A ed false) A ed))).1) C).value = some c
  rw [hE2order]
  rw [calcLoop_cons_write _ _ _ _ _ _ (by simp)]
  rw [calcLoop_cons_write _ _ _ _ _ _ (by simp [hBA])]
  rw [calcLoop_cons_write _ _ _ _ _ _ (by simp [hCA])]
  rw [calcLoop_nil]
  simp only [if_neg hBC, if_neg hBA, if_pos rfl, if_neg hCB, if_neg hCA]
  -- B's committed value
  have hvalB2 : ((editApply (Calculate form A ed false) A ed).vars B).formula
      (fun j => if j = A then
          ((editApply (Calculate form A ed false) A ed).vars A).formula
            (snapshotOf (editApply (Calculate form A ed false) A ed))
        else snapshotOf (editApply (Calculate form A ed false) A ed) j) = some b := by
    rw [hE2B]
    have hform : ((Calculate form A ed false).vars B).formula
        = (form.vars B).formula := hF1Bform
    rw [hform]
    rw [show (form.vars B).formula
        (fun j => if j = A then
            ((editApply (Calculate form A ed false) A ed).vars A).formula
              (snapshotOf (editApply (Calculate form A ed false) A ed))
          else snapshotOf (editApply (Calculate form A ed false) A ed) j)
        = (form.vars B).formula (snapshotOf (editApply form A ed)) from
      hdepB _ _ (by rw [if_pos rfl, hvalA2, hsnapA])]
    exact hb
  refine ⟨?_, ?_⟩
  · exact hvalB2
  · -- C's committed value
    rw [hE2C]
    have hform : ((Calculate form A ed false).vars C).formula
        = (form.vars C).formula := hF1Cform
    rw [hform]
    rw [show (form.vars C).formula
        (fun j => if j = B then
            ((editApply (Calculate form A ed false) A ed).vars B).formula
              (fun j2 => if j2 = A then
                  ((editApply (Calculate form A ed false) A ed).vars A).formula
                    (snapshotOf (editApply (Calculate form A ed false) A ed))
                else snapshotOf (editApply (Calculate form A ed false) A ed) j2)
          else if j = A then
            ((editApply (Calculate form A ed false) A ed).vars A).formula
              (snapshotOf (editApply (Calculate form A ed false) A ed))
          else snapshotOf (editApply (Calculate form A ed false) A ed) j)
        = (form.vars C).formula
          (fun j => if j = B then some b else snapshotOf (editApply form A ed) j) from
      hdepC _ _
        (by rw [if_neg hAB, if_pos rfl, hvalA2, if_neg hAB, hsnapA])
        (by rw [if_pos rfl, if_pos rfl]; exact hvalB2)]
    exact hc

/-- A three-variable test form over ℚ with mutually consistent
formulas: `B` copies `A`, `C` adds `A` and `B`, and `A` copies `B` (so
recomputing `A` from the chain reproduces a committed edit). -/
def tripleForm : Form ℚ :=
  { ids := ["A", "B", "C"]
    order := ["A", "B", "C"]
    vars := fun j =>
      if j = "A" then
        { value := some 2, mantissa := some 2, exponent := some 0, unit := none,
          default_unit := none, unit_ratio := 1, formula := fun s => s "B",
          prefix_marker := "⭐" }
      else if j = "B" then
        { value := some 2, mantissa := some 2, exponent := some 0, unit := none,
          default_unit := none, unit_ratio := 1, formula := fun s => s "A",
          prefix_marker := "" }
      else if j = "C" then
        { value := some 4, mantissa := some 4, exponent := some 0, unit := none,
          default_unit := none, unit_ratio := 1,
          formula := fun s => do
            let x ← s "A"
            let y ← s "B"
            pure (x + y),
          prefix_marker := "➡️" }
      else defaultVar }

/-- Witness for C4 (amended): editing `A`'s mantissa to 3 in the
consistent triple form and committing yields `B = 3 = f(new A)` and
`C = 6 = g(new A, new B)` exactly. -/
theorem c4_chain_exact_witness :
    (setValue (applyEdit (tripleForm.vars "A") (Edit.mantissa (some 3)))).value
      = some 3 ∧
    (tripleForm.vars "B").formula
      (snapshotOf (editApply tripleForm "A" (Edit.mantissa (some 3)))) = some 3 ∧
    (tripleForm.vars "C").formula
      (fun j => if j = "B" then some 3
        else snapshotOf (editApply tripleForm "A" (Edit.mantissa (some 3))) j)
      = some 6 ∧
    ((Calculate (Calculate tripleForm "A" (Edit.mantissa (some 3)) false)
        "A" (Edit.mantissa (some 3)) true).vars "B").value = some 3 ∧
    ((Calculate (Calculate tripleForm "A" (Edit.mantissa (some 3)) false)
        "A" (Edit.mantissa (some 3)) true).vars "C").value = some 6 := by
  have r := c4_chain_exact tripleForm "A" "B" "C" (Edit.mantissa (some 3)) 3 3 6
    rfl rfl (by decide) (by decide) (by decide)
    (by simp [tripleForm, setValue, applyEdit])
    (by intro s t h; simpa [tripleForm] using h)
    (by intro s t h1 h2; simp [tripleForm, h1, h2])
    ⟨2, rfl⟩ ⟨4, rfl⟩
    (by simp [tripleForm, snapshotOf, editApply, setValue, applyEdit])
    (by simp [tripleForm, snapshotOf, editApply, setValue, applyEdit]; norm_num)
    (by simp [tripleForm])
  refine ⟨?_, ?_, ?_, r.1, r.2⟩
  · simp [tripleForm, setValue, applyEdit]
  · simp [tripleForm, snapshotOf, editApply, setValue, applyEdit]
  · simp [tripleForm, snapshotOf, editApply, setValue, applyEdit]
    norm_num


theorem int_log10_eq (r : K) (z : ℤ) (h1 : (10:K) ^ z ≤ r) (h2 : r < (10:K) ^ (z + 1)) :
    Int.log 10 r = z := by
  have hr : 0 < r := lt_of_lt_of_le (zpow_pos (by norm_num) _) h1
  have hcast : ((10:ℕ):K) = (10:K) := by norm_num
  have hlo : z ≤ Int.log 10 r := by
    rw [← Int.zpow_le_iff_le_log (by norm_num) hr, hcast]
    exact h1
  have hhi : Int.log 10 r < z + 1 := by
    rw [← Int.lt_zpow_iff_log_lt (by norm_num) hr, hcast]
    exact h2
  omega

theorem round_eq_int_of (y : K) (n : ℤ) (h : |y - (n:K)| < 1/2) : round y = n := by
  have h' := abs_lt.mp h
  have hadd : round (y - (n:K) + (n:K)) = round (y - (n:K)) + n := round_add_int _ _
  rw [sub_add_cancel] at hadd
  rw [hadd, round_eq_zero_iff.mpr (Set.mem_Ico.mpr ⟨by linarith [h'.1], h'.2⟩), zero_add]

theorem round5_thousandish (y : K) (h : |y - 1000| ≤ 1/1000) : round5 y = 1000 := by
  have hb := abs_le.mp h
  have hypos : (0:K) < y := by linarith [hb.1]
  have hyne : y ≠ 0 := ne_of_gt hypos
  have habs : |y| = y := abs_of_pos hypos
  rcases le_or_lt 1000 y with hc | hc
  · have hlog : Int.log 10 |y| = 3 := by
      rw [habs]
      refine int_log10_eq y 3 ?_ ?_
      · have h3 : ((10:K) ^ (3:ℤ)) = 1000 := by norm_num
        rw [h3]; exact hc
      · have h4 : ((10:K) ^ ((3:ℤ) + 1)) = 10000 := by norm_num
        rw [h4]; linarith [hb.2]
    rw [round5, if_neg hyne, hlog]
    have hs : ((10:K) ^ ((3:ℤ) - 4)) = 1/10 := by norm_num
    have harg : y / ((10:K) ^ ((3:ℤ) - 4)) = 10 * y := by rw [hs]; ring
    have hr : round (y / ((10:K) ^ ((3:ℤ) - 4))) = (10000 : ℤ) := by
      rw [harg]
      apply round_eq_int_of
      have h1 : |10 * y - ((10000:ℤ):K)| = 10 * |y - 1000| := by
        rw [show ((10000:ℤ):K) = 10 * 1000 by norm_num, ← mul_sub, abs_mul,
          abs_of_pos (by norm_num : (0:K) < 10)]
      rw [h1]
      linarith [h]
    rw [hr, hs]
    push_cast
    norm_num
  · have hy100 : (100:K) ≤ y := by linarith [hb.1]
    have hlog : Int.log 10 |y| = 2 := by
      rw [habs]
      refine int_log10_eq y 2 ?_ ?_
      · have h2 : ((10:K) ^ (2:ℤ)) = 100 := by norm_num
        rw [h2]; exact hy100
      · have h3 : ((10:K) ^ ((2:ℤ) + 1)) = 1000 := by norm_num
        rw [h3]; exact hc
    rw [round5, if_neg hyne, hlog]
    have hs : ((10:K) ^ ((2:ℤ) - 4)) = 1/100 := by norm_num
    have harg : y / ((10:K) ^ ((2:ℤ) - 4)) = 100 * y := by rw [hs]; ring
    have hr : round (y / ((10:K) ^ ((2:ℤ) - 4))) = (100000 : ℤ) := by
      rw [harg]
      apply round_eq_int_of
      have h1 : |100 * y - ((100000:ℤ):K)| = 100 * |y - 1000| := by
        rw [show ((100000:ℤ):K) = 100 * 1000 by norm_num, ← mul_sub, abs_mul,
          abs_of_pos (by norm_num : (0:K) < 100)]
      rw [h1]
      linarith [h]
    rw [hr, hs]
    push_cast
    norm_num

theorem round5_neg_fiveish (y : K) (h : |y + 5| ≤ 1/40000) : round5 y = -5 := by
  have hb := abs_le.mp h
  have hyneg : y < 0 := by linarith [hb.2]
  have hyne : y ≠ 0 := ne_of_lt hyneg
  have habs : |y| = -y := abs_of_neg hyneg
  have hlog : Int.log 10 |y| = 0 := by
    rw [habs]
    refine int_log10_eq (-y) 0 ?_ ?_
    · have h0 : ((10:K) ^ (0:ℤ)) = 1 := by norm_num
      rw [h0]; linarith [hb.1]
    · have h1 : ((10:K) ^ ((0:ℤ) + 1)) = 10 := by norm_num
      rw [h1]; linarith [hb.2]
  rw [round5, if_neg hyne, hlog]
  have hs : ((10:K) ^ ((0:ℤ) - 4)) = 1/10000 := by norm_num
  have harg : y / ((10:K) ^ ((0:ℤ) - 4)) = 10000 * y := by rw [hs]; ring
  have hr : round (y / ((10:K) ^ ((0:ℤ) - 4))) = (-50000 : ℤ) := by
    rw [harg]
    apply round_eq_int_of
    have h1 : |10000 * y - ((-50000:ℤ):K)| = 10000 * |y + 5| := by
      rw [show ((-50000:ℤ):K) = 10000 * (-5) by norm_num, ← mul_sub, sub_neg_eq_add,
        abs_mul, abs_of_pos (by norm_num : (0:K) < 10000)]
    rw [h1]
    linarith [h]
  rw [hr, hs]
  push_cast
  norm_num

theorem num_to_scientific_thousandish (y : K) (h : |y - 1000| ≤ 1/1000) :
    num_to_scientific y = (1, 3) := by
  have hr5 := round5_thousandish y h
  rw [num_to_scientific]
  simp only [hr5]
  rw [if_neg (by norm_num : (1000:K) ≠ 0)]
  have hlog : Int.log 10 |(1000:K)| = 3 := by
    rw [abs_of_pos (by norm_num : (0:K) < 1000)]
    refine int_log10_eq _ 3 ?_ ?_ <;> norm_num
  rw [hlog]
  norm_num [Prod.ext_iff]

theorem num_to_scientific_neg_fiveish (y : K) (h : |y + 5| ≤ 1/40000) :
    num_to_scientific y = (-5, 0) := by
  have hr5 := round5_neg_fiveish y h
  rw [num_to_scientific]
  simp only [hr5]
  rw [if_neg (by norm_num : (-5:K) ≠ 0)]
  have hlog : Int.log 10 |(-5:K)| = 0 := by
    rw [show |(-5:K)| = 5 by norm_num]
    refine int_log10_eq _ 0 ?_ ?_ <;> norm_num
  rw [hlog]
  norm_num [Prod.ext_iff]


/-- The symbolic two-pass evaluation of the C5 scenario: edit `m`'s
mantissa to 5, keystroke pass (`self = false`), then commit pass
(`self = true`), over an arbitrary interpretation of part_001's `log10`
and `10 ** x` that maps 3 to 1000 (`10 ** 3` is exact even in IEEE
doubles) and is positive at `log10(1000)`.  Both passes run the walk and
rewrite `d` and `M` with recomputed values: the keystroke pass keeps
`d = 1000` but stores `M = 10 - 5 * log10(1000)`; the commit pass stores
`d = 10 ** log10(1000)` and `M = 10 - 5 * log10(10 ** log10(1000))`,
while `m` keeps its entered value 5. -/
theorem distanceModulus_two_pass (log10 tenpow : K → K)
    (hT3 : tenpow 3 = 1000)
    (hpos : 0 < tenpow (log10 1000)) :
    ((Calculate (distanceModulus log10 tenpow) "m" (Edit.mantissa (some 5)) false).vars "d").value = some 1000 ∧
    ((Calculate (distanceModulus log10 tenpow) "m" (Edit.mantissa (some 5)) false).vars "d").mantissa = some (num_to_scientific (1000:K)).1 ∧
    ((Calculate (distanceModulus log10 tenpow) "m" (Edit.mantissa (some 5)) false).vars "d").exponent = some (num_to_scientific (1000:K)).2 ∧
    ((Calculate (distanceModulus log10 tenpow) "m" (Edit.mantissa (some 5)) false).vars "M").value = some (10 - 5 * log10 1000) ∧
    ((Calculate (distanceModulus log10 tenpow) "m" (Edit.mantissa (some 5)) false).vars "M").mantissa = some (num_to_scientific (10 - 5 * log10 1000)).1 ∧
    ((Calculate (distanceModulus log10 tenpow) "m" (Edit.mantissa (some 5)) false).vars "M").exponent = some (num_to_scientific (10 - 5 * log10 1000)).2 ∧
    ((Calculate (distanceModulus log10 tenpow) "m" (Edit.mantissa (some 5)) false).vars "m").value = some 5 ∧
    ((Calculate (Calculate (distanceModulus log10 tenpow) "m" (Edit.mantissa (some 5)) false) "m" (Edit.mantissa (some 5)) true).vars "d").value = some (tenpow (log10 1000)) ∧
    ((Calculate (Calculate (distanceModulus log10 tenpow) "m" (Edit.mantissa (some 5)) false) "m" (Edit.mantissa (some 5)) true).vars "d").mantissa = some (num_to_scientific (tenpow (log10 1000))).1 ∧
    ((Calculate (Calculate (distanceModulus log10 tenpow) "m" (Edit.mantissa (some 5)) false) "m" (Edit.mantissa (some 5)) true).vars "d").exponent = some (num_to_scientific (tenpow (log10 1000))).2 ∧
    ((Calculate (Calculate (distanceModulus log10 tenpow) "m" (Edit.mantissa (some 5)) false) "m" (Edit.mantissa (some 5)) true).vars "M").value = some (10 - 5 * log10 (tenpow (log10 1000))) ∧
    ((Calculate (Calculate (distanceModulus log10 tenpow) "m" (Edit.mantissa (some 5)) false) "m" (Edit.mantissa (some 5)) true).vars "M").mantissa = some (num_to_scientific (10 - 5 * log10 (tenpow (log10 1000)))).1 ∧
    ((Calculate (Calculate (distanceModulus log10 tenpow) "m" (Edit.mantissa (some 5)) false) "m" (Edit.mantissa (some 5)) true).vars "M").exponent = some (num_to_scientific (10 - 5 * log10 (tenpow (log10 1000)))).2 ∧
    ((Calculate (Calculate (distanceModulus log10 tenpow) "m" (Edit.mantissa (some 5)) false) "m" (Edit.mantissa (some 5)) true).vars "m").value = some 5 := by
  -- records after the edit is applied (pass 1)
  have hE1d : (editApply (distanceModulus log10 tenpow) "m" (Edit.mantissa (some 5))).vars "d" = (distanceModulus log10 tenpow).vars "d" := by
    simp only [editApply]
    rw [if_neg (by decide : ("d":String) ≠ "m")]
  have hE1M : (editApply (distanceModulus log10 tenpow) "m" (Edit.mantissa (some 5))).vars "M" = (distanceModulus log10 tenpow).vars "M" := by
    simp only [editApply]
    rw [if_neg (by decide : ("M":String) ≠ "m")]
  have hE1m : (editApply (distanceModulus log10 tenpow) "m" (Edit.mantissa (some 5))).vars "m"
      = setValue (applyEdit ((distanceModulus log10 tenpow).vars "m") (Edit.mantissa (some 5))) := by
    simp only [editApply]
    rw [if_true]
  -- the pass-1 snapshot
  have hs1m : snapshotOf (editApply (distanceModulus log10 tenpow) "m" (Edit.mantissa (some 5))) "m" = some 5 := by
    rw [snapshotOf, if_pos (show "m" ∈ (editApply (distanceModulus log10 tenpow) "m" (Edit.mantissa (some 5))).ids by rw [show (editApply (distanceModulus log10 tenpow) "m" (Edit.mantissa (some 5))).ids = "m" :: "M" :: "d" :: [] from rfl]; decide), hE1m]
    simp [distanceModulus, setValue, applyEdit]
  have hs1M : snapshotOf (editApply (distanceModulus log10 tenpow) "m" (Edit.mantissa (some 5))) "M" = some (-5) := by
    rw [snapshotOf, if_pos (show "M" ∈ (editApply (distanceModulus log10 tenpow) "m" (Edit.mantissa (some 5))).ids by rw [show (editApply (distanceModulus log10 tenpow) "m" (Edit.mantissa (some 5))).ids = "m" :: "M" :: "d" :: [] from rfl]; decide), hE1M]
    simp [distanceModulus]
  have hs1d : snapshotOf (editApply (distanceModulus log10 tenpow) "m" (Edit.mantissa (some 5))) "d" = some 1000 := by
    rw [snapshotOf, if_pos (show "d" ∈ (editApply (distanceModulus log10 tenpow) "m" (Edit.mantissa (some 5))).ids by rw [show (editApply (distanceModulus log10 tenpow) "m" (Edit.mantissa (some 5))).ids = "m" :: "M" :: "d" :: [] from rfl]; decide), hE1d]
    simp [distanceModulus]
  have guard1 : guardOK (editApply (distanceModulus log10 tenpow) "m" (Edit.mantissa (some 5))) = true := by rfl
  -- the formulas and unit ratios of the three variables
  have hformd : ((distanceModulus log10 tenpow).vars "d").formula
      = fun s => (s "m").bind fun m => (s "M").bind fun M =>
          some (tenpow ((m - M + 5) / 5)) := by
    simp [distanceModulus]
  have hformM : ((distanceModulus log10 tenpow).vars "M").formula
      = fun s => (s "d").bind fun d => (s "m").bind fun m =>
          if d ≤ 0 then none else some (m - (5 * log10 d - 5)) := by
    simp [distanceModulus]
  have hformm : ((distanceModulus log10 tenpow).vars "m").formula
      = fun s => (s "d").bind fun d => (s "M").bind fun M =>
          if d ≤ 0 then none else some ((5 * log10 d - 5) + M) := by
    simp [distanceModulus]
  have hratiod : ((distanceModulus log10 tenpow).vars "d").unit_ratio = 1 := rfl
  have hratioM : ((distanceModulus log10 tenpow).vars "M").unit_ratio = 1 := rfl
  -- pass-1 step values
  have hd1 : ((distanceModulus log10 tenpow).vars "d").formula (snapshotOf (editApply (distanceModulus log10 tenpow) "m" (Edit.mantissa (some 5)))) = some 1000 := by
    rw [hformd]
    simp only [hs1m, hs1M, Option.some_bind]
    rw [show ((5:K) - -5 + 5) / 5 = 3 by norm_num, hT3]
  have hd1e : ((editApply (distanceModulus log10 tenpow) "m" (Edit.mantissa (some 5))).vars "d").formula (snapshotOf (editApply (distanceModulus log10 tenpow) "m" (Edit.mantissa (some 5)))) = some 1000 := by
    rw [hE1d]
    exact hd1
  have hM1 : ((editApply (distanceModulus log10 tenpow) "m" (Edit.mantissa (some 5))).vars "M").formula
      (fun j => if j = "d" then ((editApply (distanceModulus log10 tenpow) "m" (Edit.mantissa (some 5))).vars "d").formula (snapshotOf (editApply (distanceModulus log10 tenpow) "m" (Edit.mantissa (some 5))))
        else snapshotOf (editApply (distanceModulus log10 tenpow) "m" (Edit.mantissa (some 5))) j) = some (10 - 5 * log10 1000) := by
    rw [hE1M, hformM]
    simp only [hd1e, hs1m]
    simp only [if_pos rfl, if_neg (by decide : ("m":String) ≠ "d"), Option.some_bind, if_true]
    rw [if_neg (by norm_num : ¬(1000:K) ≤ 0)]
    exact congrArg some (by ring)
  -- pass-1 results, pointwise
  have hF1d_val : ((Calculate (distanceModulus log10 tenpow) "m" (Edit.mantissa (some 5)) false).vars "d").value = some 1000 := by
    rw [Calculate_guard_true (distanceModulus log10 tenpow) "m" (Edit.mantissa (some 5)) false guard1]
    show (((calcLoop "m" false (editApply (distanceModulus log10 tenpow) "m" (Edit.mantissa (some 5))).order (editApply (distanceModulus log10 tenpow) "m" (Edit.mantissa (some 5))).vars (snapshotOf (editApply (distanceModulus log10 tenpow) "m" (Edit.mantissa (some 5))))).1) "d").value = _
    rw [show (editApply (distanceModulus log10 tenpow) "m" (Edit.mantissa (some 5))).order = "d" :: "M" :: "m" :: [] from rfl]
    rw [calcLoop_cons_write _ _ _ _ _ _ (by simp)]
    rw [calcLoop_cons_write _ _ _ _ _ _ (by simp)]
    rw [calcLoop_cons_skip _ _ _ _ _ _ ⟨rfl, rfl⟩]
    rw [calcLoop_nil]
    simp only [if_neg (by decide : ("d":String) ≠ "M"), if_pos rfl]
    exact hd1e
  have hF1d_man : ((Calculate (distanceModulus log10 tenpow) "m" (Edit.mantissa (some 5)) false).vars "d").mantissa = some (num_to_scientific (1000:K)).1 := by
    rw [Calculate_guard_true (distanceModulus log10 tenpow) "m" (Edit.mantissa (some 5)) false guard1]
    show (((calcLoop "m" false (editApply (distanceModulus log10 tenpow) "m" (Edit.mantissa (some 5))).order (editApply (distanceModulus log10 tenpow) "m" (Edit.mantissa (some 5))).vars (snapshotOf (editApply (distanceModulus log10 tenpow) "m" (Edit.mantissa (some 5))))).1) "d").mantissa = _
    rw [show (editApply (distanceModulus log10 tenpow) "m" (Edit.mantissa (some 5))).order = "d" :: "M" :: "m" :: [] from rfl]
    rw [calcLoop_cons_write _ _ _ _ _ _ (by simp)]
    rw [calcLoop_cons_write _ _ _ _ _ _ (by simp)]
    rw [calcLoop_cons_skip _ _ _ _ _ _ ⟨rfl, rfl⟩]
    rw [calcLoop_nil]
    simp only [if_neg (by decide : ("d":String) ≠ "M"), if_pos rfl]
    rw [hd1e, hE1d, hratiod]
    simp [num_to_scientificO]
  have hF1d_exp : ((Calculate (distanceModulus log10 tenpow) "m" (Edit.mantissa (some 5)) false).vars "d").exponent = some (num_to_scientific (1000:K)).2 := by
    rw [Calculate_guard_true (distanceModulus log10 tenpow) "m" (Edit.mantissa (some 5)) false guard1]
    show (((calcLoop "m" false (editApply (distanceModulus log10 tenpow) "m" (Edit.mantissa (some 5))).order (editApply (distanceModulus log10 tenpow) "m" (Edit.mantissa (some 5))).vars (snapshotOf (editApply (distanceModulus log10 tenpow) "m" (Edit.mantissa (some 5))))).1) "d").exponent = _
    rw [show (editApply (distanceModulus log10 tenpow) "m" (Edit.mantissa (some 5))).order = "d" :: "M" :: "m" :: [] from rfl]
    rw [calcLoop_cons_write _ _ _ _ _ _ (by simp)]
    rw [calcLoop_cons_write _ _ _ _ _ _ (by simp)]
    rw [calcLoop_cons_skip _ _ _ _ _ _ ⟨rfl, rfl⟩]
    rw [calcLoop_nil]
    simp only [if_neg (by decide : ("d":String) ≠ "M"), if_pos rfl]
    rw [hd1e, hE1d, hratiod]
    simp [num_to_scientificO]
  have hF1d_form : ((Calculate (distanceModulus log10 tenpow) "m" (Edit.mantissa (some 5)) false).vars "d").formula = ((distanceModulus log10 tenpow).vars "d").formula := by
    rw [Calculate_guard_true (distanceModulus log10 tenpow) "m" (Edit.mantissa (some 5)) false guard1]
    show (((calcLoop "m" false (editApply (distanceModulus log10 tenpow) "m" (Edit.mantissa (some 5))).order (editApply (distanceModulus log10 tenpow) "m" (Edit.mantissa (some 5))).vars (snapshotOf (editApply (distanceModulus log10 tenpow) "m" (Edit.mantissa (some 5))))).1) "d").formula = _
    rw [show (editApply (distanceModulus log10 tenpow) "m" (Edit.mantissa (some 5))).order = "d" :: "M" :: "m" :: [] from rfl]
    rw [calcLoop_cons_write _ _ _ _ _ _ (by simp)]
    rw [calcLoop_cons_write _ _ _ _ _ _ (by simp)]
    rw [calcLoop_cons_skip _ _ _ _ _ _ ⟨rfl, rfl⟩]
    rw [calcLoop_nil]
    simp only [if_neg (by decide : ("d":String) ≠ "M"), if_pos rfl]
    show ((editApply (distanceModulus log10 tenpow) "m" (Edit.mantissa (some 5))).vars "d").formula = _
    rw [hE1d]
  have hF1d_ratio : ((Calculate (distanceModulus log10 tenpow) "m" (Edit.mantissa (some 5)) false).vars "d").unit_ratio = 1 := by
    rw [Calculate_guard_true (distanceModulus log10 tenpow) "m" (Edit.mantissa (some 5)) false guard1]
    show (((calcLoop "m" false (editApply (distanceModulus log10 tenpow) "m" (Edit.mantissa (some 5))).order (editApply (distanceModulus log10 tenpow) "m" (Edit.mantissa (some 5))).vars (snapshotOf (editApply (distanceModulus log10 tenpow) "m" (Edit.mantissa (some 5))))).1) "d").unit_ratio = _
    rw [show (editApply (distanceModulus log10 tenpow) "m" (Edit.mantissa (some 5))).order = "d" :: "M" :: "m" :: [] from rfl]
    rw [calcLoop_cons_write _ _ _ _ _ _ (by simp)]
    rw [calcLoop_cons_write _ _ _ _ _ _ (by simp)]
    rw [calcLoop_cons_skip _ _ _ _ _ _ ⟨rfl, rfl⟩]
    rw [calcLoop_nil]
    simp only [if_neg (by decide : ("d":String) ≠ "M"), if_pos rfl]
    show ((editApply (distanceModulus log10 tenpow) "m" (Edit.mantissa (some 5))).vars "d").unit_ratio = 1
    rw [hE1d]
    exact hratiod
  have hF1M_val : ((Calculate (distanceModulus log10 tenpow) "m" (Edit.mantissa (some 5)) false).vars "M").value = some (10 - 5 * log10 1000) := by
    rw [Calculate_guard_true (distanceModulus log10 tenpow) "m" (Edit.mantissa (some 5)) false guard1]
    show (((calcLoop "m" false (editApply (distanceModulus log10 tenpow) "m" (Edit.mantissa (some 5))).order (editApply (distanceModulus log10 tenpow) "m" (Edit.mantissa (some 5))).vars (snapshotOf (editApply (distanceModulus log10 tenpow) "m" (Edit.mantissa (some 5))))).1) "M").value = _
    rw [show (editApply (distanceModulus log10 tenpow) "m" (Edit.mantissa (some 5))).order = "d" :: "M" :: "m" :: [] from rfl]
    rw [calcLoop_cons_write _ _ _ _ _ _ (by simp)]
    rw [calcLoop_cons_write _ _ _ _ _ _ (by simp)]
    rw [calcLoop_cons_skip _ _ _ _ _ _ ⟨rfl, rfl⟩]
    rw [calcLoop_nil]
    simp only [if_pos rfl, if_neg (by decide : ("M":String) ≠ "d")]
    exact hM1
  have hF1M_man : ((Calculate (distanceModulus log10 tenpow) "m" (Edit.mantissa (some 5)) false).vars "M").mantissa
      = some (num_to_scientific (10 - 5 * log10 1000)).1 := by
    rw [Calculate_guard_true (distanceModulus log10 tenpow) "m" (Edit.mantissa (some 5)) false guard1]
    show (((calcLoop "m" false (editApply (distanceModulus log10 tenpow) "m" (Edit.mantissa (some 5))).order (editApply (distanceModulus log10 tenpow) "m" (Edit.mantissa (some 5))).vars (snapshotOf (editApply (distanceModulus log10 tenpow) "m" (Edit.mantissa (some 5))))).1) "M").mantissa = _
    rw [show (editApply (distanceModulus log10 tenpow) "m" (Edit.mantissa (some 5))).order = "d" :: "M" :: "m" :: [] from rfl]
    rw [calcLoop_cons_write _ _ _ _ _ _ (by simp)]
    rw [calcLoop_cons_write _ _ _ _ _ _ (by simp)]
    rw [calcLoop_cons_skip _ _ _ _ _ _ ⟨rfl, rfl⟩]
    rw [calcLoop_nil]
    simp only [if_pos rfl, if_neg (by decide : ("M":String) ≠ "d")]
    rw [hM1, hE1M, hratioM]
    simp [num_to_scientificO]
  have hF1M_exp : ((Calculate (distanceModulus log10 tenpow) "m" (Edit.mantissa (some 5)) false).vars "M").exponent
      = some (num_to_scientific (10 - 5 * log10 1000)).2 := by
    rw [Calculate_guard_true (distanceModulus log10 tenpow) "m" (Edit.mantissa (some 5)) false guard1]
    show (((calcLoop "m" false (editApply (distanceModulus log10 tenpow) "m" (Edit.mantissa (some 5))).order (editApply (distanceModulus log10 tenpow) "m" (Edit.mantissa (some 5))).vars (snapshotOf (editApply (distanceModulus log10 tenpow) "m" (Edit.mantissa (some 5))))).1) "M").exponent = _
    rw [show (editApply (distanceModulus log10 tenpow) "m" (Edit.mantissa (some 5))).order = "d" :: "M" :: "m" :: [] from rfl]
    rw [calcLoop_cons_write _ _ _ _ _ _ (by simp)]
    rw [calcLoop_cons_write _ _ _ _ _ _ (by simp)]
    rw [calcLoop_cons_skip _ _ _ _ _ _ ⟨rfl, rfl⟩]
    rw [calcLoop_nil]
    simp only [if_pos rfl, if_neg (by decide : ("M":String) ≠ "d")]
    rw [hM1, hE1M, hratioM]
    simp [num_to_scientificO]
  have hF1M_form : ((Calculate (distanceModulus log10 tenpow) "m" (Edit.mantissa (some 5)) false).vars "M").formula = ((distanceModulus log10 tenpow).vars "M").formula := by
    rw [Calculate_guard_true (distanceModulus log10 tenpow) "m" (Edit.mantissa (some 5)) false guard1]
    show (((calcLoop "m" false (editApply (distanceModulus log10 tenpow) "m" (Edit.mantissa (some 5))).order (editApply (distanceModulus log10 tenpow) "m" (Edit.mantissa (some 5))).vars (snapshotOf (editApply (distanceModulus log10 tenpow) "m" (Edit.mantissa (some 5))))).1) "M").formula = _
    rw [show (editApply (distanceModulus log10 tenpow) "m" (Edit.mantissa (some 5))).order = "d" :: "M" :: "m" :: [] from rfl]
    rw [calcLoop_cons_write _ _ _ _ _ _ (by simp)]
    rw [calcLoop_cons_write _ _ _ _ _ _ (by simp)]
    rw [calcLoop_cons_skip _ _ _ _ _ _ ⟨rfl, rfl⟩]
    rw [calcLoop_nil]
    simp only [if_pos rfl, if_neg (by decide : ("M":String) ≠ "d")]
    show ((editApply (distanceModulus log10 tenpow) "m" (Edit.mantissa (some 5))).vars "M").formula = _
    rw [hE1M]
  have hF1M_ratio : ((Calculate (distanceModulus log10 tenpow) "m" (Edit.mantissa (some 5)) false).vars "M").unit_ratio = 1 := by
    rw [Calculate_guard_true (distanceModulus log10 tenpow) "m" (Edit.mantissa (some 5)) false guard1]
    show (((calcLoop "m" false (editApply (distanceModulus log10 tenpow) "m" (Edit.mantissa (some 5))).order (editApply (distanceModulus log10 tenpow) "m" (Edit.mantissa (some 5))).vars (snapshotOf (editApply (distanceModulus log10 tenpow) "m" (Edit.mantissa (some 5))))).1) "M").unit_ratio = _
    rw [show (editApply (distanceModulus log10 tenpow) "m" (Edit.mantissa (some 5))).order = "d" :: "M" :: "m" :: [] from rfl]
    rw [calcLoop_cons_write _ _ _ _ _ _ (by simp)]
    rw [calcLoop_cons_write _ _ _ _ _ _ (by simp)]
    rw [calcLoop_cons_skip _ _ _ _ _ _ ⟨rfl, rfl⟩]
    rw [calcLoop_nil]
    simp only [if_pos rfl, if_neg (by decide : ("M":String) ≠ "d")]
    show ((editApply (distanceModulus log10 tenpow) "m" (Edit.mantissa (some 5))).vars "M").unit_ratio = 1
    rw [hE1M]
    exact hratioM
  have hF1m : (Calculate (distanceModulus log10 tenpow) "m" (Edit.mantissa (some 5)) false).vars "m" = (editApply (distanceModulus log10 tenpow) "m" (Edit.mantissa (some 5))).vars "m" := by
    rw [Calculate_guard_true (distanceModulus log10 tenpow) "m" (Edit.mantissa (some 5)) false guard1]
    show ((calcLoop "m" false (editApply (distanceModulus log10 tenpow) "m" (Edit.mantissa (some 5))).order (editApply (distanceModulus log10 tenpow) "m" (Edit.mantissa (some 5))).vars (snapshotOf (editApply (distanceModulus log10 tenpow) "m" (Edit.mantissa (some 5))))).1) "m" = (editApply (distanceModulus log10 tenpow) "m" (Edit.mantissa (some 5))).vars "m"
    exact calcLoop_skipped "m" _ _ _
  have hF1m_val : ((Calculate (distanceModulus log10 tenpow) "m" (Edit.mantissa (some 5)) false).vars "m").value = some 5 := by
    rw [hF1m, hE1m]
    simp [distanceModulus, setValue, applyEdit]
  -- records after the commit edit is applied (pass 2)
  have hE2d : (editApply (Calculate (distanceModulus log10 tenpow) "m" (Edit.mantissa (some 5)) false) "m" (Edit.mantissa (some 5))).vars "d" = (Calculate (distanceModulus log10 tenpow) "m" (Edit.mantissa (some 5)) false).vars "d" := by
    simp only [editApply]
    rw [if_neg (by decide : ("d":String) ≠ "m")]
  have hE2M : (editApply (Calculate (distanceModulus log10 tenpow) "m" (Edit.mantissa (some 5)) false) "m" (Edit.mantissa (some 5))).vars "M" = (Calculate (distanceModulus log10 tenpow) "m" (Edit.mantissa (some 5)) false).vars "M" := by
    simp only [editApply]
    rw [if_neg (by decide : ("M":String) ≠ "m")]
  have hE2m : (editApply (Calculate (distanceModulus log10 tenpow) "m" (Edit.mantissa (some 5)) false) "m" (Edit.mantissa (some 5))).vars "m" = (editApply (distanceModulus log10 tenpow) "m" (Edit.mantissa (some 5))).vars "m" := by
    simp only [editApply]
    rw [if_true]
    show setValue (applyEdit ((Calculate (distanceModulus log10 tenpow) "m" (Edit.mantissa (some 5)) false).vars "m") (Edit.mantissa (some 5))) = _
    rw [hF1m, hE1m, setValue_applyEdit_idem, if_true]
  have hE2ids : (editApply (Calculate (distanceModulus log10 tenpow) "m" (Edit.mantissa (some 5)) false) "m" (Edit.mantissa (some 5))).ids = ["m", "M", "d"] := by
    rw [Calculate_guard_true (distanceModulus log10 tenpow) "m" (Edit.mantissa (some 5)) false guard1]
    rfl
  have hE2order : (editApply (Calculate (distanceModulus log10 tenpow) "m" (Edit.mantissa (some 5)) false) "m" (Edit.mantissa (some 5))).order = "d" :: "M" :: "m" :: [] := by
    rw [Calculate_guard_true (distanceModulus log10 tenpow) "m" (Edit.mantissa (some 5)) false guard1]
    rfl
  -- the pass-2 snapshot
  have hs2m : snapshotOf (editApply (Calculate (distanceModulus log10 tenpow) "m" (Edit.mantissa (some 5)) false) "m" (Edit.mantissa (some 5))) "m" = some 5 := by
    rw [snapshotOf, if_pos (show "m" ∈ (editApply (Calculate (distanceModulus log10 tenpow) "m" (Edit.mantissa (some 5)) false) "m" (Edit.mantissa (some 5))).ids by rw [hE2ids]; decide), hE2m, hE1m]
    simp [distanceModulus, setValue, applyEdit]
  have hs2M : snapshotOf (editApply (Calculate (distanceModulus log10 tenpow) "m" (Edit.mantissa (some 5)) false) "m" (Edit.mantissa (some 5))) "M" = some (10 - 5 * log10 1000) := by
    rw [snapshotOf, if_pos (show "M" ∈ (editApply (Calculate (distanceModulus log10 tenpow) "m" (Edit.mantissa (some 5)) false) "m" (Edit.mantissa (some 5))).ids by rw [hE2ids]; decide), hE2M]
    exact hF1M_val
  have hs2d : snapshotOf (editApply (Calculate (distanceModulus log10 tenpow) "m" (Edit.mantissa (some 5)) false) "m" (Edit.mantissa (some 5))) "d" = some 1000 := by
    rw [snapshotOf, if_pos (show "d" ∈ (editApply (Calculate (distanceModulus log10 tenpow) "m" (Edit.mantissa (some 5)) false) "m" (Edit.mantissa (some 5))).ids by rw [hE2ids]; decide), hE2d]
    exact hF1d_val
  have guard2 : guardOK (editApply (Calculate (distanceModulus log10 tenpow) "m" (Edit.mantissa (some 5)) false) "m" (Edit.mantissa (some 5))) = true := by
    rw [guardOK]
    simp only [hE2ids, hE2order, List.all_cons, List.all_nil, hs2m, hs2M, hs2d]
    simp
  -- pass-2 step values
  have hd2 : ((editApply (Calculate (distanceModulus log10 tenpow) "m" (Edit.mantissa (some 5)) false) "m" (Edit.mantissa (some 5))).vars "d").formula (snapshotOf (editApply (Calculate (distanceModulus log10 tenpow) "m" (Edit.mantissa (some 5)) false) "m" (Edit.mantissa (some 5))))
      = some (tenpow (log10 1000)) := by
    rw [hE2d, hF1d_form, hformd]
    simp only [hs2m, hs2M, Option.some_bind]
    rw [show ((5:K) - (10 - 5 * log10 1000) + 5) / 5 = log10 1000 from by ring]
  have hM2 : ((editApply (Calculate (distanceModulus log10 tenpow) "m" (Edit.mantissa (some 5)) false) "m" (Edit.mantissa (some 5))).vars "M").formula
      (fun j => if j = "d" then ((editApply (Calculate (distanceModulus log10 tenpow) "m" (Edit.mantissa (some 5)) false) "m" (Edit.mantissa (some 5))).vars "d").formula (snapshotOf (editApply (Calculate (distanceModulus log10 tenpow) "m" (Edit.mantissa (some 5)) false) "m" (Edit.mantissa (some 5))))
        else snapshotOf (editApply (Calculate (distanceModulus log10 tenpow) "m" (Edit.mantissa (some 5)) false) "m" (Edit.mantissa (some 5))) j) = some (10 - 5 * log10 (tenpow (log10 1000))) := by
    rw [hE2M, hF1M_form, hformM]
    simp only [hd2, hs2m]
    simp only [if_pos rfl, if_neg (by decide : ("m":String) ≠ "d"), Option.some_bind, if_true]
    rw [if_neg (not_le.mpr hpos)]
    exact congrArg some (by ring)
  have hm2 : ((editApply (Calculate (distanceModulus log10 tenpow) "m" (Edit.mantissa (some 5)) false) "m" (Edit.mantissa (some 5))).vars "m").formula
      (fun j => if j = "M" then
          ((editApply (Calculate (distanceModulus log10 tenpow) "m" (Edit.mantissa (some 5)) false) "m" (Edit.mantissa (some 5))).vars "M").formula
            (fun j => if j = "d" then ((editApply (Calculate (distanceModulus log10 tenpow) "m" (Edit.mantissa (some 5)) false) "m" (Edit.mantissa (some 5))).vars "d").formula (snapshotOf (editApply (Calculate (distanceModulus log10 tenpow) "m" (Edit.mantissa (some 5)) false) "m" (Edit.mantissa (some 5))))
              else snapshotOf (editApply (Calculate (distanceModulus log10 tenpow) "m" (Edit.mantissa (some 5)) false) "m" (Edit.mantissa (some 5))) j)
        else if j = "d" then ((editApply (Calculate (distanceModulus log10 tenpow) "m" (Edit.mantissa (some 5)) false) "m" (Edit.mantissa (some 5))).vars "d").formula (snapshotOf (editApply (Calculate (distanceModulus log10 tenpow) "m" (Edit.mantissa (some 5)) false) "m" (Edit.mantissa (some 5))))
        else snapshotOf (editApply (Calculate (distanceModulus log10 tenpow) "m" (Edit.mantissa (some 5)) false) "m" (Edit.mantissa (some 5))) j) = some 5 := by
    rw [hE2m, hE1m, setValue_applyEdit_formula, hformm]
    simp only [if_pos rfl, if_neg (by decide : ("d":String) ≠ "M"),
      if_neg (by decide : ("M":String) ≠ "d"), if_true]
    rw [hM2, hd2]
    simp only [Option.some_bind]
    rw [if_neg (not_le.mpr hpos)]
    exact congrArg some (by ring)
  -- pass-2 results, pointwise
  have hF2d_val : ((Calculate (Calculate (distanceModulus log10 tenpow) "m" (Edit.mantissa (some 5)) false) "m" (Edit.mantissa (some 5)) true).vars "d").value = some (tenpow (log10 1000)) := by
    rw [Calculate_guard_true (Calculate (distanceModulus log10 tenpow) "m" (Edit.mantissa (some 5)) false) "m" (Edit.mantissa (some 5)) true guard2]
    show (((calcLoop "m" true (editApply (Calculate (distanceModulus log10 tenpow) "m" (Edit.mantissa (some 5)) false) "m" (Edit.mantissa (some 5))).order (editApply (Calculate (distanceModulus log10 tenpow) "m" (Edit.mantissa (some 5)) false) "m" (Edit.mantissa (some 5))).vars (snapshotOf (editApply (Calculate (distanceModulus log10 tenpow) "m" (Edit.mantissa (some 5)) false) "m" (Edit.mantissa (some 5))))).1) "d").value = _
    rw [hE2order]
    rw [calcLoop_cons_write _ _ _ _ _ _ (by simp)]
    rw [calcLoop_cons_write _ _ _ _ _ _ (by simp)]
    rw [calcLoop_cons_write _ _ _ _ _ _ (by simp)]
    rw [calcLoop_nil]
    simp only [if_neg (by decide : ("d":String) ≠ "m"), if_neg (by decide : ("d":String) ≠ "M"), if_pos rfl, if_true]
    exact hd2
  have hF2d_man : ((Calculate (Calculate (distanceModulus log10 tenpow) "m" (Edit.mantissa (some 5)) false) "m" (Edit.mantissa (some 5)) true).vars "d").mantissa
      = some (num_to_scientific (tenpow (log10 1000))).1 := by
    rw [Calculate_guard_true (Calculate (distanceModulus log10 tenpow) "m" (Edit.mantissa (some 5)) false) "m" (Edit.mantissa (some 5)) true guard2]
    show (((calcLoop "m" true (editApply (Calculate (distanceModulus log10 tenpow) "m" (Edit.mantissa (some 5)) false) "m" (Edit.mantissa (some 5))).order (editApply (Calculate (distanceModulus log10 tenpow) "m" (Edit.mantissa (some 5)) false) "m" (Edit.mantissa (some 5))).vars (snapshotOf (editApply (Calculate (distanceModulus log10 tenpow) "m" (Edit.mantissa (some 5)) false) "m" (Edit.mantissa (some 5))))).1) "d").mantissa = _
    rw [hE2order]
    rw [calcLoop_cons_write _ _ _ _ _ _ (by simp)]
    rw [calcLoop_cons_write _ _ _ _ _ _ (by simp)]
    rw [calcLoop_cons_write _ _ _ _ _ _ (by simp)]
    rw [calcLoop_nil]
    simp only [if_neg (by decide : ("d":String) ≠ "m"), if_neg (by decide : ("d":String) ≠ "M"), if_pos rfl, if_true]
    rw [hd2, hE2d, hF1d_ratio]
    simp [num_to_scientificO]
  have hF2d_exp : ((Calculate (Calculate (distanceModulus log10 tenpow) "m" (Edit.mantissa (some 5)) false) "m" (Edit.mantissa (some 5)) true).vars "d").exponent
      = some (num_to_scientific (tenpow (log10 1000))).2 := by
    rw [Calculate_guard_true (Calculate (distanceModulus log10 tenpow) "m" (Edit.mantissa (some 5)) false) "m" (Edit.mantissa (some 5)) true guard2]
    show (((calcLoop "m" true (editApply (Calculate (distanceModulus log10 tenpow) "m" (Edit.mantissa (some 5)) false) "m" (Edit.mantissa (some 5))).order (editApply (Calculate (distanceModulus log10 tenpow) "m" (Edit.mantissa (some 5)) false) "m" (Edit.mantissa (some 5))).vars (snapshotOf (editApply (Calculate (distanceModulus log10 tenpow) "m" (Edit.mantissa (some 5)) false) "m" (Edit.mantissa (some 5))))).1) "d").exponent = _
    rw [hE2order]
    rw [calcLoop_cons_write _ _ _ _ _ _ (by simp)]
    rw [calcLoop_cons_write _ _ _ _ _ _ (by simp)]
    rw [calcLoop_cons_write _ _ _ _ _ _ (by simp)]
    rw [calcLoop_nil]
    simp only [if_neg (by decide : ("d":String) ≠ "m"), if_neg (by decide : ("d":String) ≠ "M"), if_pos rfl, if_true]
    rw [hd2, hE2d, hF1d_ratio]
    simp [num_to_scientificO]
  have hF2M_val : ((Calculate (Calculate (distanceModulus log10 tenpow) "m" (Edit.mantissa (some 5)) false) "m" (Edit.mantissa (some 5)) true).vars "M").value
      = some (10 - 5 * log10 (tenpow (log10 1000))) := by
    rw [Calculate_guard_true (Calculate (distanceModulus log10 tenpow) "m" (Edit.mantissa (some 5)) false) "m" (Edit.mantissa (some 5)) true guard2]
    show (((calcLoop "m" true (editApply (Calculate (distanceModulus log10 tenpow) "m" (Edit.mantissa (some 5)) false) "m" (Edit.mantissa (some 5))).order (editApply (Calculate (distanceModulus log10 tenpow) "m" (Edit.mantissa (some 5)) false) "m" (Edit.mantissa (some 5))).vars (snapshotOf (editApply (Calculate (distanceModulus log10 tenpow) "m" (Edit.mantissa (some 5)) false) "m" (Edit.mantissa (some 5))))).1) "M").value = _
    rw [hE2order]
    rw [calcLoop_cons_write _ _ _ _ _ _ (by simp)]
    rw [calcLoop_cons_write _ _ _ _ _ _ (by simp)]
    rw [calcLoop_cons_write _ _ _ _ _ _ (by simp)]
    rw [calcLoop_nil]
    simp only [if_neg (by decide : ("M":String) ≠ "m"), if_pos rfl, if_neg (by decide : ("M":String) ≠ "d"), if_true]
    exact hM2
  have hF2M_man : ((Calculate (Calculate (distanceModulus log10 tenpow) "m" (Edit.mantissa (some 5)) false) "m" (Edit.mantissa (some 5)) true).vars "M").mantissa
      = some (num_to_scientific (10 - 5 * log10 (tenpow (log10 1000)))).1 := by
    rw [Calculate_guard_true (Calculate (distanceModulus log10 tenpow) "m" (Edit.mantissa (some 5)) false) "m" (Edit.mantissa (some 5)) true guard2]
    show (((calcLoop "m" true (editApply (Calculate (distanceModulus log10 tenpow) "m" (Edit.mantissa (some 5)) false) "m" (Edit.mantissa (some 5))).order (editApply (Calculate (distanceModulus log10 tenpow) "m" (Edit.mantissa (some 5)) false) "m" (Edit.mantissa (some 5))).vars (snapshotOf (editApply (Calculate (distanceModulus log10 tenpow) "m" (Edit.mantissa (some 5)) false) "m" (Edit.mantissa (some 5))))).1) "M").mantissa = _
    rw [hE2order]
    rw [calcLoop_cons_write _ _ _ _ _ _ (by simp)]
    rw [calcLoop_cons_write _ _ _ _ _ _ (by simp)]
    rw [calcLoop_cons_write _ _ _ _ _ _ (by simp)]
    rw [calcLoop_nil]
    simp only [if_neg (by decide : ("M":String) ≠ "m"), if_pos rfl, if_neg (by decide : ("M":String) ≠ "d"), if_true]
    rw [hM2, hE2M, hF1M_ratio]
    simp [num_to_scientificO]
  have hF2M_exp : ((Calculate (Calculate (distanceModulus log10 tenpow) "m" (Edit.mantissa (some 5)) false) "m" (Edit.mantissa (some 5)) true).vars "M").exponent
      = some (num_to_scientific (10 - 5 * log10 (tenpow (log10 1000)))).2 := by
    rw [Calculate_guard_true (Calculate (distanceModulus log10 tenpow) "m" (Edit.mantissa (some 5)) false) "m" (Edit.mantissa (some 5)) true guard2]
    show (((calcLoop "m" true (editApply (Calculate (distanceModulus log10 tenpow) "m" (Edit.mantissa (some 5)) false) "m" (Edit.mantissa (some 5))).order (editApply (Calculate (distanceModulus log10 tenpow) "m" (Edit.mantissa (some 5)) false) "m" (Edit.mantissa (some 5))).vars (snapshotOf (editApply (Calculate (distanceModulus log10 tenpow) "m" (Edit.mantissa (some 5)) false) "m" (Edit.mantissa (some 5))))).1) "M").exponent = _
    rw [hE2order]
    rw [calcLoop_cons_write _ _ _ _ _ _ (by simp)]
    rw [calcLoop_cons_write _ _ _ _ _ _ (by simp)]
    rw [calcLoop_cons_write _ _ _ _ _ _ (by simp)]
    rw [calcLoop_nil]
    simp only [if_neg (by decide : ("M":String) ≠ "m"), if_pos rfl, if_neg (by decide : ("M":String) ≠ "d"), if_true]
    rw [hM2, hE2M, hF1M_ratio]
    simp [num_to_scientificO]
  have hF2m_val : ((Calculate (Calculate (distanceModulus log10 tenpow) "m" (Edit.mantissa (some 5)) false) "m" (Edit.mantissa (some 5)) true).vars "m").value = some 5 := by
    rw [Calculate_guard_true (Calculate (distanceModulus log10 tenpow) "m" (Edit.mantissa (some 5)) false) "m" (Edit.mantissa (some 5)) true guard2]
    show (((calcLoop "m" true (editApply (Calculate (distanceModulus log10 tenpow) "m" (Edit.mantissa (some 5)) false) "m" (Edit.mantissa (some 5))).order (editApply (Calculate (distanceModulus log10 tenpow) "m" (Edit.mantissa (some 5)) false) "m" (Edit.mantissa (some 5))).vars (snapshotOf (editApply (Calculate (distanceModulus log10 tenpow) "m" (Edit.mantissa (some 5)) false) "m" (Edit.mantissa (some 5))))).1) "m").value = _
    rw [hE2order]
    rw [calcLoop_cons_write _ _ _ _ _ _ (by simp)]
    rw [calcLoop_cons_write _ _ _ _ _ _ (by simp)]
    rw [calcLoop_cons_write _ _ _ _ _ _ (by simp)]
    rw [calcLoop_nil]
    simp only [if_pos rfl, if_neg (by decide : ("m":String) ≠ "M"), if_neg (by decide : ("m":String) ≠ "d"), if_true]
    exact hm2
  exact ⟨hF1d_val, hF1d_man, hF1d_exp, hF1M_val, hF1M_man, hF1M_exp, hF1m_val,
    hF2d_val, hF2d_man, hF2d_exp, hF2M_val, hF2M_man, hF2M_exp, hF2m_val⟩


/-- The IEEE-754 double-precision value of part_001 line 2's
`log10(1000)`: the engine computes `Math.log(1000) = 6.907755278982137`
and `Math.log(10) = 2.302585092994046`, and their double quotient is
`2.9999999999999996 = 3 - 2^-51`, the predecessor of 3 — not the exact 3
an idealized real-number model would give. -/
def jsLog10_1000 : ℚ := 3 - 1 / 2 ^ 51

/-- The IEEE-754 double `10 ** 2.9999999999999996 = 999.999999999999`
(exactly `8796093022207991 / 2^43`, about `1.02e-12` below 1000): the
value the commit pass stores for `d`. -/
def jsPow10_log1000 : ℚ := 8796093022207991 / 8796093022208

/-- The IEEE-754 double `log10(999.999999999999) = 2.999999999999999
= 3 - 2^-50`. -/
def jsLog10_pow : ℚ := 3 - 1 / 2 ^ 50

/-- part_001 line 2's `log10 = Math.log(x) / Math.log(10)` as the engine
evaluates it, pinned at the two inputs reached in the C5 trace (1000,
and the commit-pass distance just below 1000).  No other input is
reached in either pass, so the fallback 0 is inert. -/
def jsLog10 : ℚ → ℚ := fun x =>
  if x = 1000 then jsLog10_1000
  else if x = jsPow10_log1000 then jsLog10_pow
  else 0

/-- part_001 line 37's `10 ** x` as the engine evaluates it, pinned at
the two inputs reached in the C5 trace: `10 ** 3 = 1000` is exact even
in doubles, while at the perturbed commit argument `3 - 2^-51` the
double result lies strictly below 1000.  No other input is reached in
either pass, so the fallback 0 is inert. -/
def jsTenpow : ℚ → ℚ := fun x =>
  if x = 3 then 1000
  else if x = jsLog10_1000 then jsPow10_log1000
  else 0

/-- C5, counterexample: with `log10` and `10 ** x` evaluated as the
engine's IEEE-754 doubles do it (where `log10(1000) = 3 - 2^-51 ≠ 3`),
editing `m`'s mantissa to 5 and committing does *not* leave the stored
values of `d` and `M` unchanged: the keystroke pass already overwrites
`M` with `10 - 5 * (3 - 2^-51) = -5 + 5 * 2^-51 ≠ -5`, and the commit
pass overwrites `d` with `10 ** (3 - 2^-51) = 999.999999999999 ≠ 1000`.
The claim's exact-preservation statement holds only for an exact
(infinite-precision) `log10`. -/
theorem c5_distance_modulus_counterexample :
    ((Calculate (distanceModulus jsLog10 jsTenpow) "m" (Edit.mantissa (some 5)) false).vars "M").value = some (-5 + 5 / 2 ^ 51) ∧
    some ((-5:ℚ) + 5 / 2 ^ 51) ≠ some (-5:ℚ) ∧
    ((Calculate (Calculate (distanceModulus jsLog10 jsTenpow) "m" (Edit.mantissa (some 5)) false) "m" (Edit.mantissa (some 5)) true).vars "d").value = some jsPow10_log1000 ∧
    some jsPow10_log1000 ≠ some (1000:ℚ) := by
  have hT3 : jsTenpow 3 = 1000 := by norm_num [jsTenpow]
  have hQ : jsLog10 1000 = 3 - 1 / 2 ^ 51 := by norm_num [jsLog10, jsLog10_1000]
  have hTQ : jsTenpow (jsLog10 1000) = jsPow10_log1000 := by
    rw [hQ]
    simp only [jsTenpow]
    rw [if_neg (by norm_num), if_pos (by norm_num [jsLog10_1000])]
  have hpos : 0 < jsTenpow (jsLog10 1000) := by
    rw [hTQ, jsPow10_log1000]
    norm_num
  obtain ⟨h1, h2, h3, h4, h5, h6, h7, h8, h9, h10, h11, h12, h13, h14⟩ :=
    distanceModulus_two_pass jsLog10 jsTenpow hT3 hpos
  refine ⟨?_, by norm_num, ?_, by rw [jsPow10_log1000]; norm_num⟩
  · rw [h4, hQ]
    norm_num
  · rw [h8, hTQ]

/-- C5 (amended): in the distance-modulus form (order `[d, M, m]`,
`d` = 1000 parsecs shown as mantissa 1 / exponent 3, `M` = -5), editing
`m`'s mantissa to 5 and committing with the order unchanged does run the
propagation walk (`m` is not `order[0]`), and the walk overwrites the
stored values of `d` and `M` with recomputed ones rather than leaving
them untouched.  Over any interpretation of part_001's `log10` and
`10 ** x` with `10 ** 3 = 1000`: the keystroke pass keeps
`d.value = 1000` exactly but stores `M.value = 10 - 5 * log10(1000)`,
which equals -5 *iff* `log10` is exact at 1000 (the engine's double
`log10(1000) = 3 - 2^-51` is not); the commit pass then stores
`d.value = 10 ** log10(1000)` and
`M.value = 10 - 5 * log10(10 ** log10(1000))`, while `m` keeps its
entered value 5.  What the scenario does preserve is the
5-significant-digit display: both variables' mantissa/exponent pairs
remain (1, 3) and (-5, 0) whenever the log/pow round-trip errors stay
below the stated bounds, which IEEE doubles meet by nine orders of
magnitude. -/
theorem c5_distance_modulus_recompute (log10 tenpow : K → K)
    (hT3 : tenpow 3 = 1000)
    (hL : |log10 1000 - 3| ≤ 1 / 200000)
    (hTL : |tenpow (log10 1000) - 1000| ≤ 1 / 1000)
    (hL2 : |log10 (tenpow (log10 1000)) - 3| ≤ 1 / 200000) :
    (((Calculate (distanceModulus log10 tenpow) "m" (Edit.mantissa (some 5)) false).vars "d").value = some 1000 ∧
      ((Calculate (distanceModulus log10 tenpow) "m" (Edit.mantissa (some 5)) false).vars "d").mantissa = some 1 ∧
      ((Calculate (distanceModulus log10 tenpow) "m" (Edit.mantissa (some 5)) false).vars "d").exponent = some 3) ∧
    (((Calculate (distanceModulus log10 tenpow) "m" (Edit.mantissa (some 5)) false).vars "M").value = some (10 - 5 * log10 1000) ∧
      (((Calculate (distanceModulus log10 tenpow) "m" (Edit.mantissa (some 5)) false).vars "M").value = some (-5) ↔ log10 1000 = 3) ∧
      ((Calculate (distanceModulus log10 tenpow) "m" (Edit.mantissa (some 5)) false).vars "M").mantissa = some (-5) ∧
      ((Calculate (distanceModulus log10 tenpow) "m" (Edit.mantissa (some 5)) false).vars "M").exponent = some 0) ∧
    ((Calculate (distanceModulus log10 tenpow) "m" (Edit.mantissa (some 5)) false).vars "m").value = some 5 ∧
    (((Calculate (Calculate (distanceModulus log10 tenpow) "m" (Edit.mantissa (some 5)) false) "m" (Edit.mantissa (some 5)) true).vars "d").value = some (tenpow (log10 1000)) ∧
      ((Calculate (Calculate (distanceModulus log10 tenpow) "m" (Edit.mantissa (some 5)) false) "m" (Edit.mantissa (some 5)) true).vars "d").mantissa = some 1 ∧
      ((Calculate (Calculate (distanceModulus log10 tenpow) "m" (Edit.mantissa (some 5)) false) "m" (Edit.mantissa (some 5)) true).vars "d").exponent = some 3) ∧
    (((Calculate (Calculate (distanceModulus log10 tenpow) "m" (Edit.mantissa (some 5)) false) "m" (Edit.mantissa (some 5)) true).vars "M").value = some (10 - 5 * log10 (tenpow (log10 1000))) ∧
      ((Calculate (Calculate (distanceModulus log10 tenpow) "m" (Edit.mantissa (some 5)) false) "m" (Edit.mantissa (some 5)) true).vars "M").mantissa = some (-5) ∧
      ((Calculate (Calculate (distanceModulus log10 tenpow) "m" (Edit.mantissa (some 5)) false) "m" (Edit.mantissa (some 5)) true).vars "M").exponent = some 0) ∧
    ((Calculate (Calculate (distanceModulus log10 tenpow) "m" (Edit.mantissa (some 5)) false) "m" (Edit.mantissa (some 5)) true).vars "m").value = some 5 := by
  have hb := abs_le.mp hTL
  have hpos : 0 < tenpow (log10 1000) := by linarith [hb.1]
  obtain ⟨h1, h2, h3, h4, h5, h6, h7, h8, h9, h10, h11, h12, h13, h14⟩ :=
    distanceModulus_two_pass log10 tenpow hT3 hpos
  have hts1000 : num_to_scientific (1000:K) = (1, 3) :=
    num_to_scientific_thousandish 1000 (by norm_num)
  have htsM1 : num_to_scientific (10 - 5 * log10 1000) = ((-5 : K), (0 : ℤ)) := by
    apply num_to_scientific_neg_fiveish
    have h := abs_le.mp hL
    rw [abs_le]
    constructor <;> linarith [h.1, h.2]
  have htsd2 : num_to_scientific (tenpow (log10 1000)) = (1, 3) :=
    num_to_scientific_thousandish _ hTL
  have htsM2 : num_to_scientific (10 - 5 * log10 (tenpow (log10 1000)))
      = ((-5 : K), (0 : ℤ)) := by
    apply num_to_scientific_neg_fiveish
    have h := abs_le.mp hL2
    rw [abs_le]
    constructor <;> linarith [h.1, h.2]
  have hiff : ((Calculate (distanceModulus log10 tenpow) "m" (Edit.mantissa (some 5)) false).vars "M").value = some (-5) ↔ log10 1000 = 3 := by
    rw [h4]
    constructor
    · intro h
      have h' := Option.some.inj h
      linarith [h']
    · intro h
      rw [h]
      norm_num
  refine ⟨⟨h1, ?_, ?_⟩, ⟨h4, hiff, ?_, ?_⟩, h7, ⟨h8, ?_, ?_⟩, ⟨h11, ?_, ?_⟩, h14⟩
  · rw [h2, hts1000]
  · rw [h3, hts1000]
  · rw [h5, htsM1]
  · rw [h6, htsM1]
  · rw [h9, htsd2]
  · rw [h10, htsd2]
  · rw [h12, htsM2]
  · rw [h13, htsM2]

/-- Witness for C5 (amended), at the engine's pinned IEEE-754 doubles:
the hypotheses hold concretely, the keystroke pass shows `M` with
display mantissa -5, and the commit pass shows `d` with display
mantissa 1, by `c5_distance_modulus_recompute`. -/
theorem c5_distance_modulus_recompute_witness :
    (jsTenpow 3 = 1000 ∧
      |jsLog10 1000 - 3| ≤ 1 / 200000 ∧
      |jsTenpow (jsLog10 1000) - 1000| ≤ 1 / 1000 ∧
      |jsLog10 (jsTenpow (jsLog10 1000)) - 3| ≤ 1 / 200000) ∧
    (((Calculate (distanceModulus jsLog10 jsTenpow) "m" (Edit.mantissa (some 5)) false).vars "M").mantissa = some (-5) ∧
      ((Calculate (Calculate (distanceModulus jsLog10 jsTenpow) "m" (Edit.mantissa (some 5)) false) "m" (Edit.mantissa (some 5)) true).vars "d").mantissa = some 1) := by
  have hT3 : jsTenpow 3 = 1000 := by norm_num [jsTenpow]
  have hQ : jsLog10 1000 = 3 - 1 / 2 ^ 51 := by norm_num [jsLog10, jsLog10_1000]
  have hTQ : jsTenpow (jsLog10 1000) = jsPow10_log1000 := by
    rw [hQ]
    simp only [jsTenpow]
    rw [if_neg (by norm_num), if_pos (by norm_num [jsLog10_1000])]
  have hL : |jsLog10 1000 - 3| ≤ 1 / 200000 := by
    rw [hQ, abs_le]
    constructor <;> norm_num
  have hTL : |jsTenpow (jsLog10 1000) - 1000| ≤ 1 / 1000 := by
    rw [hTQ, jsPow10_log1000, abs_le]
    constructor <;> norm_num
  have hQ2 : jsLog10 (jsTenpow (jsLog10 1000)) = 3 - 1 / 2 ^ 50 := by
    rw [hTQ]
    simp only [jsLog10]
    rw [if_neg (by norm_num [jsPow10_log1000]), if_true]
    norm_num [jsLog10_pow]
  have hL2 : |jsLog10 (jsTenpow (jsLog10 1000)) - 3| ≤ 1 / 200000 := by
    rw [hQ2, abs_le]
    constructor <;> norm_num
  have h := c5_distance_modulus_recompute jsLog10 jsTenpow hT3 hL hTL hL2
  exact ⟨⟨hT3, hL, hTL, hL2⟩, h.2.1.2.2.1, h.2.2.2.1.2.1⟩

end Astro
